import Mathlib

/-!
Verification development for the ForestOS scheduling / HTA-evolution core
(`impossible-dream-test.js`).  JavaScript numbers that can be `NaN` are
modelled as `Option Int` (with `none` standing for `NaN`/`undefined`);
strings are modelled as Lean strings, with all operations implemented by
structural recursion over `List Char` so that every definition evaluates
inside the kernel.  Fallible code paths (`throw`/`try`/`catch`) are
modelled with `Except`.
-/

namespace Forest

/-- A decidable "list is a prefix of another list" check over characters. -/
def charsPre : List Char → List Char → Bool
  | [], _ => true
  | _ :: _, [] => false
  | a :: as, b :: bs => a = b && charsPre as bs

/-- Substring search over character lists (models JS `String.includes`). -/
def charsSub (needle : List Char) : List Char → Bool
  | [] => charsPre needle []
  | c :: t => charsPre needle (c :: t) || charsSub needle t

/-- JS `hay.includes(needle)` for strings. -/
def strIncludes (hay needle : String) : Bool :=
  charsSub needle.data hay.data

/-- Strip leading and trailing whitespace (models JS `String.trim`). -/
def chTrim (cs : List Char) : List Char :=
  ((cs.dropWhile Char.isWhitespace).reverse.dropWhile Char.isWhitespace).reverse

/-- Split a character list at every occurrence of a separator character
(models JS `String.split` with a one-character separator: empty pieces are
kept, and the empty string splits to `[""]`). -/
def chSplit (sep : Char) : List Char → List (List Char)
  | [] => [[]]
  | c :: cs =>
    let r := chSplit sep cs
    if c = sep then [] :: r
    else
      match r with
      | h :: t => (c :: h) :: t
      | [] => [[c]]

/-- ASCII upper-casing of one character. -/
def chUpChar (c : Char) : Char :=
  if 'a' ≤ c && c ≤ 'z' then Char.ofNat (c.toNat - 32) else c

/-- ASCII lower-casing of one character. -/
def chDownChar (c : Char) : Char :=
  if 'A' ≤ c && c ≤ 'Z' then Char.ofNat (c.toNat + 32) else c

/-- Models JS `String.toUpperCase` on the ASCII fragment. -/
def chUp (cs : List Char) : List Char := cs.map chUpChar

/-- Models JS `String.toLowerCase` on the ASCII fragment. -/
def chDown (cs : List Char) : List Char := cs.map chDownChar

/-- JS `s.toLowerCase()` for strings. -/
def strLower (s : String) : String := ⟨chDown s.data⟩

/-- Case-insensitive substring test used all over the source
(`x.toLowerCase().includes(y.toLowerCase())`). -/
def lowerIncludes (hay needle : String) : Bool :=
  charsSub (chDown needle.data) (chDown hay.data)

/-- Value of one decimal digit character, `none` otherwise. -/
def digitVal (c : Char) : Option Nat :=
  if c.isDigit then some (c.toNat - '0'.toNat) else none

/-- Digits-to-value helper: `some n` when the character list is a non-empty
run of decimal digits, else `none`. -/
def digitsVal : List Char → Option Nat
  | [] => none
  | [c] => digitVal c
  | c :: cs =>
    match digitVal c, digitsVal cs with
    | some d, some rest => some (d * 10 ^ cs.length + rest)
    | _, _ => none

/-- Model of JS `Number(string)` on the integer fragment: trimmed empty
string is `0`, an optional sign followed by digits is its value, anything
else is `NaN` (`none`). -/
def jsNumberCh (s : List Char) : Option Int :=
  let t := chTrim s
  match t with
  | [] => some 0
  | '-' :: rest => (digitsVal rest).map (fun n => -(n : Int))
  | '+' :: rest => (digitsVal rest).map (fun n => (n : Int))
  | cs => (digitsVal cs).map (fun n => (n : Int))

/-- `Number` applied to a possibly-`undefined` value (`none` is `NaN`). -/
def jsNumberU (o : Option (List Char)) : Option Int :=
  o.bind jsNumberCh

/-- NaN-propagating addition on JS numbers. -/
def jsAddNum (a b : Option Int) : Option Int :=
  match a, b with
  | some x, some y => some (x + y)
  | _, _ => none

/-- NaN-propagating multiplication on JS numbers. -/
def jsMulNum (a b : Option Int) : Option Int :=
  match a, b with
  | some x, some y => some (x * y)
  | _, _ => none

/-- JS `a >= b` where `a` is a plain integer and `b` may be `NaN`
(comparisons against `NaN` are false). -/
def jsGeN (a : Int) (b : Option Int) : Bool :=
  match b with
  | some y => a ≥ y
  | none => false

/-- JS `a <= b` where `b` may be `NaN`. -/
def jsLeN (a : Int) (b : Option Int) : Bool :=
  match b with
  | some y => a ≤ y
  | none => false

/-- JS `a < b` where `b` may be `NaN`. -/
def jsLtN (a : Int) (b : Option Int) : Bool :=
  match b with
  | some y => a < y
  | none => false

/-- JS `opt || dflt` on strings (empty string is falsy). -/
def jsOrStr (o : Option String) (dflt : String) : String :=
  match o with
  | some s => if s = "" then dflt else s
  | none => dflt

/-- JS `opt || dflt` on numbers (`0` and `NaN` are falsy). -/
def jsOrNum (o : Option Int) (dflt : Int) : Int :=
  match o with
  | some v => if v = 0 then dflt else v
  | none => dflt

/-- Does the string contain a `[AP]M` match, case-insensitively
(JS regex test `/[AP]M/i`)? -/
def hasAmPmMark : List Char → Bool
  | c1 :: c2 :: rest =>
    ((c1 = 'A' || c1 = 'a' || c1 = 'P' || c1 = 'p') &&
     (c2 = 'M' || c2 = 'm')) || hasAmPmMark (c2 :: rest)
  | _ => false

/-- Embedding of `parseTime` (`impossible-dream-test.js:1078`), over the
characters of the input.  Returns `none` for a `NaN` result; the
`try`/`catch` that returns the sentinel `0` is modelled by returning
`some 0` on the paths where the JS body throws. -/
def parseTimeCh (timeStr : List Char) : Option Int :=
  let cleaned := chTrim timeStr
  if hasAmPmMark cleaned then
    -- 12-hour format with AM/PM
    let parts := chSplit ' ' cleaned
    match parts.get? 1 with
    | none => some 0  -- `periodRaw.toUpperCase()` throws; catch returns 0
    | some periodRaw =>
      let period := chUp periodRaw
      let time := parts.headD []
      let tparts := (chSplit ':' time).map jsNumberCh
      let hours0 := (tparts.get? 0).getD none
      let minutes := (tparts.get? 1).getD none
      let hours1 :=
        if period = ['P', 'M'] && !(hours0 = some 12) then jsAddNum hours0 (some 12)
        else hours0
      let hours2 := if period = ['A', 'M'] && hours1 = some 12 then some 0 else hours1
      jsAddNum (jsMulNum hours2 (some 60)) minutes
  else
    -- 24-hour format (no AM/PM suffix)
    let parts := chSplit ':' cleaned
    let hoursO := jsNumberCh (parts.headD [])
    let minutesO := jsNumberU (parts.get? 1)
    match hoursO, minutesO with
    | some h, some m =>
      let h2 := if h = 24 then 0 else h  -- treat 24:00 as 00:00
      some (h2 * 60 + m)
    | _, _ => some 0  -- `throw new Error('Invalid time')`; catch returns 0

/-- `parseTime` on Lean strings. -/
def parseTime (timeStr : String) : Option Int :=
  parseTimeCh timeStr.data

/-- JS `%` (remainder truncated toward zero, sign of the dividend). -/
def jsRem (a b : Int) : Int := Int.tmod a b

/-- Decimal digit characters of a natural number (fuel-driven so that the
kernel can evaluate it; ten digits are ample for every number involved). -/
def chOfNatAux : Nat → Nat → List Char
  | 0, _ => []
  | fuel + 1, n =>
    if n < 10 then [Char.ofNat (48 + n)]
    else chOfNatAux fuel (n / 10) ++ [Char.ofNat (48 + n % 10)]

/-- Decimal representation of a natural number. -/
def chOfNat (n : Nat) : List Char := chOfNatAux (n + 1) n

/-- Decimal representation of an integer (models JS number-to-string for
integral values). -/
def chOfInt (m : Int) : List Char :=
  if m < 0 then '-' :: chOfNat (-m).toNat else chOfNat m.toNat

/-- `String.padStart(2, '0')` for the minute field. -/
def pad2 (s : List Char) : List Char :=
  if s.length < 2 then '0' :: s else s

/-- Embedding of `formatTime` (`impossible-dream-test.js:1108`), producing
the characters of the result. -/
def formatTimeCh (minutes : Int) : List Char :=
  let minsMod := jsRem (jsRem minutes 1440 + 1440) 1440
  let hours := minsMod / 60
  let mins := jsRem minsMod 60
  let period := if hours ≥ 12 then ['P', 'M'] else ['A', 'M']
  let displayHours := if hours = 0 then 12 else if hours > 12 then hours - 12 else hours
  chOfInt displayHours ++ [':'] ++ pad2 (chOfInt mins) ++ [' '] ++ period

/-- `formatTime` on Lean strings. -/
def formatTime (minutes : Int) : String :=
  ⟨formatTimeCh minutes⟩

/-- NaN-propagating subtraction on JS numbers. -/
def jsSubNum (a b : Option Int) : Option Int :=
  match a, b with
  | some x, some y => some (x - y)
  | _, _ => none

/-- JS `Math.max` on two numbers (`NaN` if either argument is `NaN`). -/
def jsMaxNum (a b : Option Int) : Option Int :=
  match a, b with
  | some x, some y => some (max x y)
  | _, _ => none

/-- JS `Math.min` on two numbers (`NaN` if either argument is `NaN`). -/
def jsMinNum (a b : Option Int) : Option Int :=
  match a, b with
  | some x, some y => some (min x y)
  | _, _ => none

/-- JS `a > b` where `a` may be `NaN` and `b` is a plain integer. -/
def jsGtL (a : Option Int) (b : Int) : Bool :=
  match a with
  | some x => x > b
  | none => false

/-- JS `a >= b` where `a` may be `NaN`. -/
def jsGeL (a : Option Int) (b : Int) : Bool :=
  match a with
  | some x => x ≥ b
  | none => false

/-- JS `a <= b` where `a` may be `NaN`. -/
def jsLeL (a : Option Int) (b : Int) : Bool :=
  match a with
  | some x => x ≤ b
  | none => false

/-- JS `a < b` where `a` may be `NaN`. -/
def jsLtL (a : Option Int) (b : Int) : Bool :=
  match a with
  | some x => x < b
  | none => false

/-- Match of the regex fragment `(\d+)\s*LIT` anchored at the head of the
character list: a maximal digit run, optional whitespace, then the literal.
Returns the digits' value. -/
def matchNumUnitAt (lit : List Char) (cs : List Char) : Option Nat :=
  let p := cs.span Char.isDigit
  match digitsVal p.1 with
  | none => none
  | some v =>
    if charsPre lit (p.2.dropWhile Char.isWhitespace) then some v else none

/-- Leftmost match of `(\d+)\s*LIT` anywhere in the list (models
JS `str.match(/(\d+)\s*LIT/)`, returning the captured number). -/
def findNumUnit (lit : List Char) : List Char → Option Nat
  | [] => none
  | c :: cs =>
    match matchNumUnitAt lit (c :: cs) with
    | some v => some v
    | none => findNumUnit lit cs

/-- Match of `(\d+)-(\d+)\s*(hour|min)` anchored at the head of the list:
returns the upper bound and whether the unit group was `hour`. -/
def matchRangeAt (cs : List Char) : Option (Nat × Bool) :=
  let p1 := cs.span Char.isDigit
  match digitsVal p1.1 with
  | none => none
  | some _ =>
    match p1.2 with
    | '-' :: r2 =>
      let p2 := r2.span Char.isDigit
      match digitsVal p2.1 with
      | none => none
      | some upper =>
        let r4 := p2.2.dropWhile Char.isWhitespace
        if charsPre ['h', 'o', 'u', 'r'] r4 then some (upper, true)
        else if charsPre ['m', 'i', 'n'] r4 then some (upper, false)
        else none
    | _ => none

/-- Leftmost match of `(\d+)-(\d+)\s*(hour|min)` (models the range regex in
`parseTimeAvailable`). -/
def findRange : List Char → Option (Nat × Bool)
  | [] => none
  | c :: cs =>
    match matchRangeAt (c :: cs) with
    | some r => some r
    | none => findRange cs

/-- Embedding of `parseTimeAvailable` (`impossible-dream-test.js:2691`):
heuristic free-text duration parsing.  `none` models a JS `undefined`
argument (falsy, like the empty string). -/
def parseTimeAvailable (timeStr : Option String) : Int :=
  match timeStr with
  | none => 60  -- `if (!timeStr) return 60`
  | some ts =>
    if ts = "" then 60
    else
      let str := chDown ts.data
      if charsSub "flexible".data str || charsSub "needed".data str ||
         charsSub "natural".data str || charsSub "stopping".data str ||
         charsSub "variable".data str then
        120  -- flexible/open-ended sentinel
      else
        match findRange str with
        | some (upper, isHour) => if isHour then (upper : Int) * 60 else (upper : Int)
        | none =>
          match findNumUnit ['m', 'i', 'n'] str, findNumUnit ['h', 'o', 'u', 'r'] str with
          | some m, _ => (m : Int)
          | none, some h => (h : Int) * 60
          | none, none => 60

/-!  ## Data model

Fields that the source reads defensively (optional chaining, `||` defaults)
are `Option`-valued; `none` models a missing property (`undefined`).
Numbers that can be `NaN` in the source are `Option Int`.
-/

/-- One record of the learning-history `completed_topics` log. -/
structure TopicRecord where
  topic : String
  date : String := ""
  learned : String := ""
  difficulty : Int := 3
  breakthrough : Bool := false
deriving Repr, DecidableEq

/-- One record of the learning-history `knowledge_gaps` log. -/
structure KnowledgeGap where
  question : String
  discovered : String := ""
  from_topic : String := ""
deriving Repr, DecidableEq

/-- The learning-history file. -/
structure LearningHistory where
  completed_topics : List TopicRecord := []
  knowledge_gaps : List KnowledgeGap := []
  insights : List String := []
deriving Repr, DecidableEq

/-- A frontier (or completed) HTA node. -/
structure Node where
  id : String
  title : String := ""
  description : String := ""
  branch_type : String := ""
  estimated_time : Option String := none
  priority : String := "medium"
  status : String := "ready"
  knowledge_level : Option String := none
  magnitude : Option Int := none
  prerequisites : Option (List String) := none
  learning_outcomes : Option (List String) := none
  generated_from : Option String := none
  path_priority : Option Bool := none
  path_focus : Option String := none
  interest_based : Option Bool := none
  completed_date : Option String := none
  actual_difficulty : Option Int := none
deriving Repr, DecidableEq

/-- A habit node (only the fields `scheduleHabitBlocks` touches). -/
structure HabitNode where
  id : String
  title : String := ""
  description : String := ""
  status : String := "ready"
  habit_kind : Option String := none  -- the source's `habit.type`
  tracking_metrics : Option (List String) := none
  success_criteria : Option String := none
deriving Repr, DecidableEq

/-- A schedule time block. -/
structure Block where
  id : String
  kind : String  -- the source's `type` field
  time : String
  duration : String
  action : String := ""
  description : String := ""
  strategic_purpose : Option String := none
  energy_type : Option String := none
  learning_outcomes : Option (List String) := none
  magnitude : Option Int := none
  fixed : Option Bool := none
  energy_impact : Option String := none
  habit_kind : Option String := none
  tracking_metrics : Option (List String) := none
  success_criteria : Option String := none
  completed : Option String := none
  outcome : Option String := none
  learned : Option String := none
  next_questions : Option String := none
  energy_after : Option Int := none
  difficulty_rating : Option Int := none
  breakthrough : Option Bool := none
  hta_connected : Option Bool := none
deriving Repr, DecidableEq

/-- A day's schedule file. -/
structure ScheduleData where
  north_star : String := ""
  time_blocks : Option (List Block) := some []
  total_blocks : Int := 0
  completed : Int := 0
  energy_level : Int := 3
  focus_type : String := ""
  project_id : Option String := none
  date : Option String := none
  created : Option String := none
deriving Repr, DecidableEq

/-- The HTA tree file. -/
structure HTA where
  north_star : String := ""
  frontier_nodes : List Node := []
  completed_nodes : List Node := []
  habit_nodes : List HabitNode := []
  last_evolution : Option String := none
deriving Repr, DecidableEq

/-- An entry of `projectConfig.learning_paths`. -/
structure LearnPathInfo where
  path_name : String
  interests : List String := []
  priority : String := "medium"
  created_dynamically : Bool := false
deriving Repr, DecidableEq

/-- The project configuration file (fields this core reads). -/
structure ProjectConfig where
  goal : String := ""
  wake_minutes : Int := 420
  sleep_minutes : Int := 1290
  meal_times : Option (List String) := none
  focus_duration : Option String := none
  transition_time : Option String := none
  active_learning_path : Option String := none
  learning_paths : Option (List LearnPathInfo) := none
  knowledge_level : Option Int := none
  breakthroughs : Option Int := none
  path_focus_duration : Option String := none
  path_focused_at : Option String := none
deriving Repr, DecidableEq

/-- A 15-minute scheduling slot. -/
structure Slot where
  start : Int
  formatted_time : String
  available : Bool
deriving Repr, DecidableEq

/-- A key identifying one persistence save: `saveProjectData projectId file`
or `savePathData projectId path file`.  The project id is fixed per
operation and omitted. -/
inductive SaveKey where
  | project (file : String)
  | path (pathName : String) (file : String)
deriving Repr, DecidableEq

/-- A log of the saves an operation performed, with each save's result. -/
abbrev SaveTrace := List (SaveKey × Bool)

/-!  ## ScheduleSynthesizer

`generateComprehensiveSchedule` and its helpers
(`impossible-dream-test.js:2047-2295`).  `Math.random`-based id generation
is modelled by an id supply `ids : Nat → String` with a running counter.
Slot objects are mutated in place in the source (`slot.available = false`);
since every slot has a distinct `start`, the embedding records consumed
starts and marks them in the slot list.  -/

/-- The window-resolution rule of `generateComprehensiveSchedule`
(`impossible-dream-test.js:2066-2069`): if sleep is at or before wake, it
belongs to the next day. -/
def resolveEndTime (wakeMinutes sleepMinutes : Int) : Int :=
  if sleepMinutes ≤ wakeMinutes then sleepMinutes + 1440 else sleepMinutes

/-- Embedding of `scheduleFixedLifeStructure`
(`impossible-dream-test.js:2098`): places 30-minute meal blocks at their
configured times when they fit the window.  Returns the blocks and the
advanced id counter. -/
def scheduleFixedLifeStructure (config : ProjectConfig) (startTime endTime : Int)
    (ids : Nat → String) (k0 : Nat) : List Block × Nat :=
  let mealTimes := match config.meal_times with
    | some l => l  -- an empty array is truthy in JS and is kept as-is
    | none => ["12:00 PM", "6:00 PM"]
  go mealTimes.enum k0
where
  go : List (Nat × String) → Nat → List Block × Nat
  | [], k => ([], k)
  | (index, mealTime) :: rest, k =>
    match parseTime mealTime with
    | some mealMinutes =>
      if mealMinutes ≥ startTime && mealMinutes ≤ endTime - 30 then
        let b : Block :=
          { id := ids k
            kind := "meal"
            time := formatTime mealMinutes
            duration := "30 min"
            action := if index = 0 then "Lunch" else if index = 1 then "Dinner"
                      else "Meal " ++ String.mk (chOfNat (index + 1))
            description := "Nourishment and mental break"
            fixed := some true
            energy_impact := some "restorative" }
        let r := go rest (k + 1)
        (b :: r.1, r.2)
      else go rest k
    | none => go rest k  -- NaN meal time: both comparisons are false

/-- Embedding of `createTimeSlots` (`impossible-dream-test.js:2125`):
15-minute slots from wake to the resolved end, skipping any slot that
falls inside a fixed block. -/
def createTimeSlots (startTime endTime : Int) (fixedBlocks : List Block) : List Slot :=
  let n : Nat := if endTime ≤ startTime then 0 else ((endTime - startTime).toNat + 14) / 15
  (List.range n).filterMap fun (i : Nat) =>
    let currentTime := startTime + 15 * (i : Int)
    let hasFixedBlock := fixedBlocks.any fun b =>
      let blockTime := parseTime b.time
      let blockDuration := parseTimeAvailable (some b.duration)
      jsGeN currentTime blockTime &&
        jsLtN currentTime (jsAddNum blockTime (some blockDuration))
    if hasFixedBlock then none
    else some { start := currentTime, formatted_time := formatTime currentTime, available := true }

/-- Embedding of `identifyHighEnergyPeriods`
(`impossible-dream-test.js:2150`): the first one-to-three hours after wake
and a fixed mid-afternoon window. -/
def identifyHighEnergyPeriods (config : ProjectConfig) : List (Option Int × Option Int) :=
  [ (some (config.wake_minutes + 60), some (config.wake_minutes + 180)),
    (parseTime "2:00 PM", parseTime "4:00 PM") ]

/-- Marks the slots whose `start` was consumed as unavailable (models the
in-place `slot.available = false` mutations). -/
def markConsumed (consumed : List Int) (slots : List Slot) : List Slot :=
  slots.map fun s => if consumed.contains s.start then { s with available := false } else s

/-- The learning block built for a node placed in a slot. -/
def learningBlockOf (node : Node) (s : Slot) (focusDuration : Int) (etype : String) : Block :=
  { id := node.id
    kind := "learning"
    time := s.formatted_time
    duration := jsOrStr node.estimated_time (String.mk (chOfInt focusDuration) ++ " min")
    action := node.title
    description := node.description
    strategic_purpose := some node.branch_type
    energy_type := some etype
    learning_outcomes := some (node.learning_outcomes.getD [])
    magnitude := node.magnitude }

/-- Assigns nodes (starting at index `start`) to a run of slots, one per
slot, producing the blocks, the consumed slot starts, and the next node
index — the inner `forEach` of `scheduleLearningBlocks`. -/
def assignSlots (nodes : List Node) (mk : Node → Slot → Block) :
    List Slot → Nat → List Block × List Int × Nat
  | [], start => ([], [], start)
  | s :: rest, start =>
    match nodes.get? start with
    | some node =>
      let r := assignSlots nodes mk rest (start + 1)
      (mk node s :: r.1, s.start :: r.2.1, r.2.2)
    | none => ([], [], start)

/-- Whether a slot lies inside a high-energy period
(`slot.start >= period.start && slot.start <= period.end`). -/
def slotInPeriod (p : Option Int × Option Int) (s : Slot) : Bool :=
  jsGeN s.start p.1 && jsLeN s.start p.2

/-- The per-period placement loop of `scheduleLearningBlocks`.  The source
filters the snapshot of available slots by the period bounds only — it does
not re-check availability, which is preserved here. -/
def assignPeriods (nodes : List Node) (mk : Node → Slot → Block) (snapshot : List Slot) :
    List (Option Int × Option Int) → Nat → List Block × List Int × Nat
  | [], ni => ([], [], ni)
  | p :: ps, ni =>
    let periodSlots := snapshot.filter (slotInPeriod p)
    let r1 := assignSlots nodes mk periodSlots ni
    let r2 := assignPeriods nodes mk snapshot ps r1.2.2
    (r1.1 ++ r2.1, r1.2.1 ++ r2.2.1, r2.2.2)

/-- Embedding of `scheduleLearningBlocks` (`impossible-dream-test.js:2158`):
high-magnitude (≥ 7) nodes go to high-energy periods first, the rest fill
the remaining available slots in frontier order. -/
def scheduleLearningBlocks (learningNodes : List Node) (timeSlots : List Slot)
    (highEnergyPeriods : List (Option Int × Option Int)) (focusDuration : Int) :
    List Block × List Slot :=
  let snapshot := timeSlots.filter (·.available)
  let challengingNodes := learningNodes.filter fun n => jsGeL n.magnitude 7
  let easyNodes := learningNodes.filter fun n => jsLtL n.magnitude 7
  let r1 := assignPeriods challengingNodes
    (fun n s => learningBlockOf n s focusDuration "high-focus") snapshot highEnergyPeriods 0
  let consumed1 := r1.2.1
  let remainingSlots := snapshot.filter fun s => !consumed1.contains s.start
  let r2 := assignSlots easyNodes
    (fun n s => learningBlockOf n s focusDuration "moderate") remainingSlots 0
  (r1.1 ++ r2.1, markConsumed (consumed1 ++ r2.2.1) timeSlots)

/-- The habit block built for a habit placed in a slot. -/
def habitBlockOf (habit : HabitNode) (s : Slot) : Block :=
  { id := habit.id
    kind := "habit"
    time := s.formatted_time
    duration := "15 min"
    action := habit.title
    description := habit.description
    habit_kind := habit.habit_kind
    tracking_metrics := some (habit.tracking_metrics.getD [])
    success_criteria := habit.success_criteria }

/-- The habit placement loop of `scheduleHabitBlocks`.  The `find` over the
snapshot checks only the 30-minute distance, not availability (as in the
source). -/
def assignHabits (snapshot : List Slot) (habitTimes : List Int) :
    List (Nat × HabitNode) → List Block × List Int
  | [] => ([], [])
  | (index, habit) :: rest =>
    match habitTimes.get? index with
    | none => assignHabits snapshot habitTimes rest
    | some targetTime =>
      match snapshot.find? (fun s => (s.start - targetTime).natAbs < 30) with
      | some nearestSlot =>
        let r := assignHabits snapshot habitTimes rest
        (habitBlockOf habit nearestSlot :: r.1, nearestSlot.start :: r.2)
      | none => assignHabits snapshot habitTimes rest

/-- Embedding of `scheduleHabitBlocks` (`impossible-dream-test.js:2218`):
up to two habits anchored 30 minutes after wake and 60 minutes before
sleep, matched to the nearest available slot within 30 minutes. -/
def scheduleHabitBlocks (habitNodes : List HabitNode) (timeSlots : List Slot)
    (config : ProjectConfig) : List Block × List Slot :=
  let snapshot := timeSlots.filter (·.available)
  let habitTimes := [config.wake_minutes + 30, config.sleep_minutes - 60]
  let r := assignHabits snapshot habitTimes habitNodes.enum
  (r.1, markConsumed r.2 timeSlots)

/-- The break-insertion loop of `scheduleLifeStructure`: every third
snapshot slot becomes a 10-minute break, provided a following snapshot slot
exists. -/
def mkBreaks (snapshot : List Slot) (ids : Nat → String) :
    List (Nat × Slot) → Nat → List Block × List Int × Nat
  | [], k => ([], [], k)
  | (index, s) :: rest, k =>
    if index % 3 = 0 && (snapshot.get? (index + 1)).isSome then
      let b : Block :=
        { id := ids k
          kind := "break"
          time := s.formatted_time
          duration := "10 min"
          action := "Restorative Break"
          description := "Rest, stretch, hydrate, or light movement"
          energy_impact := some "restorative" }
      let r := mkBreaks snapshot ids rest (k + 1)
      (b :: r.1, s.start :: r.2.1, r.2.2)
    else mkBreaks snapshot ids rest k

/-- Embedding of `scheduleLifeStructure` (`impossible-dream-test.js:2259`):
breaks on every third available slot, transitions on everything left. -/
def scheduleLifeStructure (timeSlots : List Slot) (config : ProjectConfig)
    (ids : Nat → String) (k0 : Nat) : List Block × Nat :=
  let snapshot := timeSlots.filter (·.available)
  let transitionTime := parseTimeAvailable (some (jsOrStr config.transition_time "5 minutes"))
  let rb := mkBreaks snapshot ids snapshot.enum k0
  let consumed := rb.2.1
  let remainingSlots := timeSlots.filter fun s => s.available && !consumed.contains s.start
  let transitions := remainingSlots.enum.map fun p =>
    { id := ids (rb.2.2 + p.1)
      kind := "transition"
      time := p.2.formatted_time
      duration := String.mk (chOfInt transitionTime) ++ " min"
      action := "Transition & Preparation"
      description := "Prepare for next activity, organize workspace, mindful transition"
      energy_impact := some "neutral" : Block }
  (rb.1 ++ transitions, rb.2.2 + remainingSlots.length)

/-- Stable insertion of `x` after every already-placed element `y` with
`keep y x` (used to model JS's stable `Array.sort`). -/
def insertKeep (keep : α → α → Bool) (x : α) : List α → List α
  | [] => [x]
  | y :: ys => if keep y x then y :: insertKeep keep x ys else x :: y :: ys

/-- Stable sort: `keep y x` states that an earlier element `y` stays before
a later `x` (for a JS comparator `cmp`, `keep y x = cmp y x ≤ 0`). -/
def sortKeep (keep : α → α → Bool) (l : List α) : List α :=
  l.foldl (fun acc x => insertKeep keep x acc) []

/-- The block sort key of `generateComprehensiveSchedule`
(`this.parseTime(a.time)`); every generated block's time parses to a
number, `0` is used for an unreachable `NaN`. -/
def blockSortKey (b : Block) : Int := (parseTime b.time).getD 0

/-- Embedding of `generateComprehensiveSchedule`
(`impossible-dream-test.js:2047`). -/
def generateComprehensiveSchedule (config : ProjectConfig) (hta : HTA)
    (energyLevel : Int) (focusType : String) (ids : Nat → String) : ScheduleData :=
  let learningNodes := hta.frontier_nodes.filter (·.status = "ready")
  let habitNodes := hta.habit_nodes.filter (·.status = "ready")
  let currentTime := config.wake_minutes
  let endTime := resolveEndTime currentTime config.sleep_minutes
  let focusDuration := parseTimeAvailable (some (jsOrStr config.focus_duration "25 minutes"))
  let rf := scheduleFixedLifeStructure config currentTime endTime ids 0
  let fixedBlocks := rf.1
  let timeSlots := createTimeSlots currentTime endTime fixedBlocks
  let highEnergyPeriods := identifyHighEnergyPeriods config
  let rl := scheduleLearningBlocks learningNodes timeSlots highEnergyPeriods focusDuration
  let rh := scheduleHabitBlocks habitNodes rl.2 config
  let rs := scheduleLifeStructure rh.2 config ids rf.2
  let allBlocks := fixedBlocks ++ rl.1 ++ rh.1 ++ rs.1
  let sorted := sortKeep (fun a b => blockSortKey a ≤ blockSortKey b) allBlocks
  { north_star := hta.north_star
    time_blocks := some sorted
    total_blocks := sorted.length
    completed := 0
    energy_level := energyLevel
    focus_type := focusType }

/-!  ## SequenceEngine: task selection -/

/-- Embedding of `isTaskRelevantToPath` (`impossible-dream-test.js:3416`). -/
def isTaskRelevantToPath (task : Node) (pathName : String) : Bool :=
  let pathLower := chDown pathName.data
  if task.path_focus = some pathName then true
  else if charsSub pathLower (chDown task.title.data) then true
  else if charsSub pathLower (chDown task.description.data) then true
  else if task.branch_type.data = pathLower then true
  else if (task.learning_outcomes.getD []).any (fun o => charsSub pathLower (chDown o.data)) then
    true
  else if task.interest_based = some true && charsSub pathLower (chDown task.title.data) then true
  else false

/-- One prerequisite entry is met: completed-node id, completed-node title,
or completed-topic record, in that order (`impossible-dream-test.js:2575-2587`). -/
def prereqSatisfied (completedTaskIds completedTaskTitles : List String)
    (completedTopics : List TopicRecord) (prereq : String) : Bool :=
  completedTaskIds.contains prereq ||
  completedTaskTitles.contains prereq ||
  completedTopics.any fun topic => topic.topic = prereq

/-- The `readyNodes` filter predicate of `getNextTask`
(`impossible-dream-test.js:2569-2596`): status `ready`, all prerequisites
satisfied, and — when a learning path is active — path relevance. -/
def nodeEligible (config : ProjectConfig) (completedTaskIds completedTaskTitles : List String)
    (completedTopics : List TopicRecord) (node : Node) : Bool :=
  if !(node.status = "ready") then false
  else
    let prereqsMet :=
      match node.prerequisites with
      | some ps =>
        if ps.length > 0 then
          ps.all (prereqSatisfied completedTaskIds completedTaskTitles completedTopics)
        else true
      | none => true
    if !prereqsMet then false
    else
      match config.active_learning_path with
      | some activePath =>
        if activePath = "" then true  -- empty string is falsy: no path filter
        else isTaskRelevantToPath node activePath
      | none => true

/-- The score of one candidate in `selectOptimalTask`
(`impossible-dream-test.js:2723`). -/
def scoreNode (contextFromMemory : String) (node : Node) : Int :=
  let s1 : Int := if node.path_priority = some true then 500 else 0
  let s2 : Int :=
    if node.branch_type = "interest_driven" || node.interest_based = some true then 300
    else if node.branch_type = "exploration" || node.branch_type = "sampling" then 250
    else if node.branch_type = "fundamentals" then 200
    else if node.branch_type = "tools" then 150
    else if node.branch_type = "practical" then 100
    else if node.branch_type = "research" then 25
    else 0
  let s3 : Int :=
    if node.priority = "critical" then 50
    else if node.priority = "high" then 35
    else if node.priority = "medium" then 20
    else 0
  let s4 : Int :=
    match node.prerequisites with
    | none => -25
    | some ps => if ps.length = 0 then -25 else 0
  let s5 : Int :=
    if !(contextFromMemory = "") &&
       charsSub (chDown contextFromMemory.data) (chDown node.description.data) then 15
    else 0
  let s6 : Int := if parseTimeAvailable node.estimated_time ≤ 30 then 5 else 0
  s1 + s2 + s3 + s4 + s5 + s6

/-- Embedding of `selectOptimalTask` (`impossible-dream-test.js:2723`):
stable sort by score descending, take the head (`none` models the JS
`undefined` of indexing an empty array). -/
def selectOptimalTask (nodes : List Node) (contextFromMemory : String) : Option Node :=
  (sortKeep (fun a b => scoreNode contextFromMemory b ≤ scoreNode contextFromMemory a)
    nodes).head?

/-!  ## OpportunityDetector -/

/-- An `externalFeedback` entry: the public tool schema declares an object
`{source, content, sentiment}`, but the detector also tolerates plain
strings (`feedback.content || feedback`). -/
inductive Feedback where
  | str (s : String)
  | obj (source : Option String) (content : Option String) (sentiment : Option String)
deriving Repr, DecidableEq

/-- `feedback.sentiment` (a string has no such property). -/
def Feedback.sentiment : Feedback → Option String
  | .str _ => none
  | .obj _ _ sentiment => sentiment

/-- `feedback.source` . -/
def Feedback.source : Feedback → Option String
  | .str _ => none
  | .obj source _ _ => source

/-- `feedback.content` . -/
def Feedback.content : Feedback → Option String
  | .str _ => none
  | .obj _ content _ => content

/-- `feedback.includes(x)`: defined for strings, a TypeError for objects
(`Except.error`). -/
def Feedback.jsIncludes : Feedback → String → Except String Bool
  | .str s, x => .ok (strIncludes s x)
  | .obj _ _ _, _ => .error "TypeError: feedback.includes is not a function"

/-- The completion context bundle handed to the detector. -/
structure CompletionContext where
  engagementLevel : Int := 5
  unexpectedResults : List String := []
  newSkillsRevealed : List String := []
  externalFeedback : List Feedback := []
  difficultyRating : Int := 3
  breakthrough : Bool := false
  shorterPathDiscovered : Bool := false
deriving Repr, DecidableEq

/-- The fields of the just-completed task (a frontier node or a schedule
block) that the detector and invalidator read. -/
structure TaskView where
  id : String
  title : String := ""
  branch_type : Option String := none  -- a block exposes `strategic_purpose` here
  estimated_time : Option String := none
  magnitude : Option Int := none
deriving Repr, DecidableEq

/-- The detector's view of a completed frontier node. -/
def Node.view (n : Node) : TaskView :=
  { id := n.id, title := n.title, branch_type := some n.branch_type,
    estimated_time := n.estimated_time, magnitude := n.magnitude }

/-- The external-feedback loop of `detectEmergentOpportunities`
(`impossible-dream-test.js:3504-3521`): a node per entry whose sentiment is
positive or (short-circuit otherwise) whose text contains
"viral"/"interested" — those `includes` calls throw on schema objects. -/
def feedbackOpportunities (completedTask : TaskView) (ids : Nat → String) :
    List Feedback → Nat → Except String (List Node × Nat)
  | [], k => .ok ([], k)
  | feedback :: rest, k =>
    let emit : Except String Bool :=
      if feedback.sentiment = some "positive" then .ok true
      else
        match feedback.jsIncludes "viral" with
        | .error e => .error e
        | .ok true => .ok true
        | .ok false => feedback.jsIncludes "interested"
    match emit with
    | .error e => .error e
    | .ok true =>
      let node : Node :=
        { id := ids k
          title := "Leverage External Interest: " ++ (feedback.source.getD "Unknown")
          description := "External feedback on \"" ++ completedTask.title ++ "\": \"" ++
            (match feedback with
             | .str s => s
             | .obj _ content _ => jsOrStr content "[object Object]") ++
            "\". This could be an opportunity."
          branch_type := "external_opportunity"
          estimated_time := some "20 minutes"
          priority := "critical"
          status := "ready"
          magnitude := some 6
          prerequisites := some [completedTask.id]
          generated_from := some "external_feedback_detection"
          learning_outcomes :=
            some ["Capitalize on interest", "Build external connections", "Amplify reach"] }
      match feedbackOpportunities completedTask ids rest (k + 1) with
      | .error e => .error e
      | .ok r => .ok (node :: r.1, r.2)
    | .ok false => feedbackOpportunities completedTask ids rest k

/-- Embedding of `detectEmergentOpportunities`
(`impossible-dream-test.js:3449`).  Emits breakthrough-amplification,
serendipity, hidden-talent and external-opportunity nodes; the
external-feedback loop can throw (see `Feedback.jsIncludes`). -/
def detectEmergentOpportunities (completedTask : TaskView) (ctx : CompletionContext)
    (ids : Nat → String) (k0 : Nat) : Except String (List Node × Nat) :=
  let amp : List Node × Nat :=
    if ctx.engagementLevel ≥ 8 then
      ([{ id := ids k0
          title := "Amplify Success: " ++ completedTask.title
          description := "Your high engagement with \"" ++ completedTask.title ++
            "\" suggests deeper potential. Let's explore this further."
          branch_type := "breakthrough_amplification"
          estimated_time := some (jsOrStr completedTask.estimated_time "25 minutes")
          priority := "high"
          status := "ready"
          magnitude := jsMaxNum (some 3) (jsSubNum completedTask.magnitude (some 1))
          prerequisites := some [completedTask.id]
          generated_from := some "high_engagement_detection"
          learning_outcomes :=
            some ["Explore natural talent", "Build on momentum", "Discover hidden capabilities"] }],
       k0 + 1)
    else ([], k0)
  let serendipity : List Node × Nat := mkSerendipity completedTask ids ctx.unexpectedResults amp.2
  let talents : List Node × Nat := mkTalents completedTask ids ctx.newSkillsRevealed serendipity.2
  match feedbackOpportunities completedTask ids ctx.externalFeedback talents.2 with
  | .error e => .error e
  | .ok ext => .ok (amp.1 ++ serendipity.1 ++ talents.1 ++ ext.1, ext.2)
where
  mkSerendipity (completedTask : TaskView) (ids : Nat → String) :
      List String → Nat → List Node × Nat
  | [], k => ([], k)
  | result :: rest, k =>
    let node : Node :=
      { id := ids k
        title := "Explore Unexpected: " ++ result
        description := "The unexpected result \"" ++ result ++ "\" from \"" ++
          completedTask.title ++ "\" may open new pathways we hadn't considered."
        branch_type := "serendipity_pathway"
        estimated_time := some "15 minutes"
        priority := "medium"
        status := "ready"
        magnitude := some 4
        prerequisites := some [completedTask.id]
        generated_from := some "unexpected_result_detection"
        learning_outcomes :=
          some ["Investigate serendipity", "Explore new directions", "Follow emerging opportunities"] }
    let r := mkSerendipity completedTask ids rest (k + 1)
    (node :: r.1, r.2)
  mkTalents (completedTask : TaskView) (ids : Nat → String) :
      List String → Nat → List Node × Nat
  | [], k => ([], k)
  | skill :: rest, k =>
    let node : Node :=
      { id := ids k
        title := "Develop Hidden Talent: " ++ skill
        description := "Completing \"" ++ completedTask.title ++
          "\" revealed you have natural ability in " ++ skill ++ ". Let's build on this."
        branch_type := "hidden_talent_development"
        estimated_time := some "30 minutes"
        priority := "high"
        status := "ready"
        magnitude := some 5
        prerequisites := some [completedTask.id]
        generated_from := some "skill_revelation_detection"
        learning_outcomes := some ["Develop " ++ skill, "Build confidence", "Explore natural abilities"] }
    let r := mkTalents completedTask ids rest (k + 1)
    (node :: r.1, r.2)

/-- Embedding of `invalidateUnnecessaryTasks`
(`impossible-dream-test.js:3526`): drops frontier nodes made unnecessary by
the completion. -/
def invalidateUnnecessaryTasks (frontierNodes : List Node) (completedTask : TaskView)
    (ctx : CompletionContext) : List Node :=
  frontierNodes.filter fun node =>
    let skillBasedInvalidation := ctx.newSkillsRevealed.any fun skill =>
      charsSub (chDown skill.data) (chDown node.title.data) &&
      node.branch_type = "fundamentals" &&
      !(completedTask.branch_type = some "fundamentals")
    let resultBasedInvalidation := ctx.unexpectedResults.any fun result =>
      !(node.description = "") &&
      charsSub (chDown result.data) (chDown node.description.data) &&
      (match node.magnitude, completedTask.magnitude with
       | some a, some b => a ≤ b
       | _, _ => false)
    let pathBasedInvalidation := ctx.shorterPathDiscovered &&
      node.branch_type = "preparation" &&
      (node.prerequisites.getD []).contains completedTask.id
    !(skillBasedInvalidation || resultBasedInvalidation || pathBasedInvalidation)

/-!  ## SequenceEngine: frontier evolution (`evolveHTABasedOnLearning`) -/

/-- The detector's view of a completed schedule block (the fallback
`completedTask || completedBlock`): a block has no `title`, `branch_type`
or `estimated_time` property, so `title` interpolates as "undefined" and
the others read as `undefined`. -/
def blockView (b : Block) : TaskView :=
  { id := b.id, title := "undefined", branch_type := none,
    estimated_time := none, magnitude := b.magnitude }

/-- The always-generated continuation task
(`impossible-dream-test.js:2437`). -/
def continuationTaskOf (ids : Nat → String) (k : Nat) (completedBlock : Block) : Node :=
  { id := ids k
    title := "Continue: Build on " ++ completedBlock.action
    description := "Apply and extend what you learned from: " ++ completedBlock.action
    branch_type := jsOrStr completedBlock.strategic_purpose "practical"
    estimated_time := some "As long as needed"
    priority := "high"
    status := "ready"
    knowledge_level := some "intermediate"
    magnitude := some (max 4 (jsOrNum completedBlock.magnitude 6 - 1))
    prerequisites := some [completedBlock.id]
    learning_outcomes := some ["Apply " ++ completedBlock.action ++ " knowledge",
      "Deepen understanding", "Build practical skills"]
    generated_from := some "task_completion" }

/-- The research task generated from a follow-up question
(`impossible-dream-test.js:2456`). -/
def researchTaskOf (ids : Nat → String) (k : Nat) (nextQuestions : String)
    (completedBlock : Block) : Node :=
  { id := ids k
    title := "Research: " ++ String.mk (nextQuestions.data.take 50) ++ "..."
    description := "Investigate: " ++ nextQuestions
    branch_type := "research"
    estimated_time := some "As long as needed"
    priority := "medium"
    status := "ready"
    knowledge_level := some "intermediate"
    magnitude := some 5
    prerequisites := some [completedBlock.id]
    learning_outcomes := ["Answer: " ++ nextQuestions, "Fill knowledge gaps",
      "Prepare for advanced topics"]
    generated_from := some "curiosity" }

/-- The global difficulty-rebalancing map at the end of
`evolveHTABasedOnLearning` (`impossible-dream-test.js:2484-2497`). -/
def adjustMagnitudes (difficultyRating : Int) (nodes : List Node) : List Node :=
  if difficultyRating = 5 then
    nodes.map fun n => { n with magnitude := jsMaxNum (some 3) (jsSubNum n.magnitude (some 1)) }
  else if difficultyRating = 1 then
    nodes.map fun n => { n with magnitude := jsMinNum (some 10) (jsAddNum n.magnitude (some 1)) }
  else nodes

/-- Embedding of `evolveHTABasedOnLearning` (`impossible-dream-test.js:2418`).
`configReload` is the value `loadProjectData(projectId, 'config.json')`
yields during this call (used by `getActiveHTA` and for the active path);
`htaOpt` is the HTA that `getActiveHTA` resolves.  Returns the evolved HTA
(`none` when the function returned early) and the saves performed. -/
def evolveHTABasedOnLearning (σ : SaveKey → Bool) (configReload : Option ProjectConfig)
    (htaOpt : Option HTA) (completedBlock : Block) (nextQuestions : String)
    (ctx : CompletionContext) (nowIso : String) (ids : Nat → String) (k0 : Nat) :
    Except String (Option HTA × SaveTrace) :=
  match configReload with
  | none => .ok (none, [])  -- getActiveHTA: no config ⇒ null hta ⇒ early return
  | some cfgR =>
    match htaOpt with
    | none => .ok (none, [])  -- `if (!hta) {return;}`
    | some hta =>
      -- move the completed node (if present) to the completed list
      let idxO := hta.frontier_nodes.findIdx? fun n => n.id = completedBlock.id
      let frontier0 := match idxO with
        | some idx => hta.frontier_nodes.eraseIdx idx
        | none => hta.frontier_nodes
      let completed0 := match idxO.bind (hta.frontier_nodes.get? ·) with
        | some node => hta.completed_nodes ++
            [{ node with completed_date := some nowIso,
                         actual_difficulty := some ctx.difficultyRating }]
        | none => hta.completed_nodes
      let continuation := continuationTaskOf ids k0 completedBlock
      let newTasks0 := [continuation]
      let k1 := k0 + 1
      let newTasks1 := if !(nextQuestions = "") then
          newTasks0 ++ [researchTaskOf ids k1 nextQuestions completedBlock]
        else newTasks0
      let k2 := if !(nextQuestions = "") then k1 + 1 else k1
      let completedTask : TaskView := match completed0.getLast? with
        | some n => n.view  -- most recently completed
        | none => blockView completedBlock  -- `completedTask || completedBlock`
      (detectEmergentOpportunities completedTask ctx ids k2).map fun emergent =>
        let newTasks := if emergent.1.length > 0 then newTasks1 ++ emergent.1 else newTasks1
        let frontier1 := invalidateUnnecessaryTasks frontier0 completedTask ctx
        let frontier2 := frontier1 ++ newTasks
        let frontier3 := adjustMagnitudes ctx.difficultyRating frontier2
        let hta2 : HTA :=
          { hta with
            frontier_nodes := frontier3
            completed_nodes := completed0
            last_evolution := some nowIso }
        let activePath := jsOrStr cfgR.active_learning_path "general"
        let pathKey := SaveKey.path activePath "hta.json"
        let saved := σ pathKey
        -- on failure, silently fall back to the project-level location
        let trace := if saved then [(pathKey, true)]
          else [(pathKey, false),
                (SaveKey.project "hta.json", σ (SaveKey.project "hta.json"))]
        (some hta2, trace)

/-!  ## `completeBlock` (`impossible-dream-test.js:2296`) -/

/-- Replaces the first block satisfying `p` (models the in-place mutation
of the block `Array.find` returned). -/
def updateFirst (p : Block → Bool) (f : Block → Block) : List Block → List Block
  | [] => []
  | b :: bs => if p b then f b :: bs else b :: updateFirst p f bs

/-- The completion fields written onto the found block. -/
def markBlockDone (nowIso outcome learned nextQuestions : String)
    (energyLevel difficultyRating : Int) (breakthrough : Bool) (b : Block) : Block :=
  { b with completed := some nowIso, outcome := some outcome, learned := some learned,
           next_questions := some nextQuestions, energy_after := some energyLevel,
           difficulty_rating := some difficultyRating, breakthrough := some breakthrough }

/-- The non-text outputs of `completeBlock`: the states it wrote. -/
structure CBOut where
  schedule : ScheduleData
  history : LearningHistory
  config : ProjectConfig
  htaOut : Option HTA
deriving Repr, DecidableEq

/-- Embedding of `completeBlock` (`impossible-dream-test.js:2296`).  The
`Opt` parameters are what the corresponding `loadProjectData` calls
return; `σ` gives each save's result.  The response text (display only) is
omitted; the second component logs the saves performed on the successful
path. -/
def completeBlock (σ : SaveKey → Bool) (today nowIso : String)
    (scheduleOpt : Option ScheduleData) (historyOpt : Option LearningHistory)
    (configOpt configReload : Option ProjectConfig) (htaOpt : Option HTA)
    (ids : Nat → String) (blockId outcome learned nextQuestions : String)
    (energyLevel : Int) (difficultyRating : Int) (breakthrough : Bool)
    (engagementLevel : Int) (unexpectedResults newSkillsRevealed : List String)
    (externalFeedback : List Feedback) : Except String (CBOut × SaveTrace) :=
  match scheduleOpt with
  | none => .error "No schedule found for today in this project"
  | some schedule =>
    match schedule.time_blocks with
    | none => .error "TypeError: schedule.time_blocks is undefined"
    | some blocks =>
      let byId : Block → Bool := fun b => b.id = blockId
      let byAction : Block → Bool := fun b => chDown b.action.data = chDown blockId.data
      let found : Option (Block → Bool) :=
        if blocks.any byId then some byId
        else if blocks.any byAction then some byAction
        else none
      match found with
      | none => .error ("Block " ++ blockId ++ " not found")
      | some p =>
        let upd := markBlockDone nowIso outcome learned nextQuestions
          energyLevel difficultyRating breakthrough
        let blocks2 := updateFirst p upd blocks
        let block2 := (blocks.find? p).map upd  -- the mutated found block
        match block2 with
        | none => .error "unreachable"
        | some block =>
          let schedule2 :=
            { schedule with
              time_blocks := some blocks2
              completed := schedule.completed + 1 }
          let dayKey := SaveKey.project ("day_" ++ today ++ ".json")
          let savedDay := σ dayKey
          if !savedDay then .error "Failed to save schedule update"
          else
            let history0 := historyOpt.getD {}
            let history1 := { history0 with completed_topics := history0.completed_topics ++
              [{ topic := block.action, date := today, learned := learned,
                 difficulty := difficultyRating, breakthrough := breakthrough }] }
            let history2 := if !(nextQuestions = "") then
                { history1 with knowledge_gaps := history1.knowledge_gaps ++
                  [{ question := nextQuestions, discovered := today,
                     from_topic := block.action }] }
              else history1
            let histKey := SaveKey.project "learning_history.json"
            let histSaved := σ histKey  -- result ignored by the source
            match configOpt with
            | none => .error "TypeError: projectConfig is null"
            | some config =>
              let config2 := { config with
                knowledge_level := some (min 100 (jsOrNum config.knowledge_level 0 + 1)),
                breakthroughs := if breakthrough then some (jsOrNum config.breakthroughs 0 + 1)
                  else config.breakthroughs }
              let cfgKey := SaveKey.project "config.json"
              let cfgSaved := σ cfgKey  -- result ignored by the source
              let ctx : CompletionContext :=
                { engagementLevel := engagementLevel
                  unexpectedResults := unexpectedResults
                  newSkillsRevealed := newSkillsRevealed
                  externalFeedback := externalFeedback
                  difficultyRating := difficultyRating
                  breakthrough := breakthrough }
              (evolveHTABasedOnLearning σ configReload htaOpt block
                  nextQuestions ctx nowIso ids 0).map fun ev =>
                ({ schedule := schedule2, history := history2,
                   config := config2, htaOut := ev.1 },
                 [(dayKey, savedDay), (histKey, histSaved), (cfgKey, cfgSaved)] ++ ev.2)

/-!  ## `getNextTask` (`impossible-dream-test.js:2544`) -/

/-- The learning block `getNextTask` appends for the selected task
(`impossible-dream-test.js:2669-2680`). -/
def nextTaskBlock (nextTask : Node) (nowMinutes : Int) : Block :=
  { id := nextTask.id
    kind := "learning"
    time := formatTime nowMinutes
    duration := jsOrStr nextTask.estimated_time "30 min"
    action := nextTask.title
    description := nextTask.description
    strategic_purpose := some nextTask.branch_type
    hta_connected := some true }

/-- The outcome of a `getNextTask` call. -/
inductive NextTaskResult where
  | stuck
  | selected (task : Node) (schedule : ScheduleData)
deriving Repr, DecidableEq

/-- The tail of `getNextTask`: builds the memory context (which throws
when the task has no `learning_outcomes`), ensures the task exists in
today's schedule — creating the schedule if needed, appending a learning
block timed at the current clock time — and saves the schedule
(`impossible-dream-test.js:2648-2687`). -/
def attachTaskToSchedule (σ : SaveKey → Bool) (projectId today nowIso : String)
    (hta : HTA) (energyLevel : Int) (nowMinutes : Int)
    (scheduleOpt : Option ScheduleData) (nextTask : Node) :
    Except String (NextTaskResult × SaveTrace) :=
  match nextTask.learning_outcomes with
  | none => .error "TypeError: cannot read properties of undefined"
  | some _ =>
    let schedule0 : ScheduleData := match scheduleOpt with
      | some s => s
      | none =>
        { project_id := some projectId, date := some today, north_star := hta.north_star,
          time_blocks := some [], total_blocks := 0, completed := 0,
          energy_level := energyLevel, focus_type := "mixed", created := some nowIso }
    -- `if (!schedule.time_blocks) schedule.time_blocks = []`
    let blocks := schedule0.time_blocks.getD []
    let schedule1 := { schedule0 with time_blocks := some blocks }
    if blocks.any (fun b => b.id = nextTask.id) then .ok (.selected nextTask schedule1, [])
    else
      let blocks2 := blocks ++ [nextTaskBlock nextTask nowMinutes]
      let schedule2 :=
        { schedule1 with
          time_blocks := some blocks2
          total_blocks := blocks2.length }
      let dayKey := SaveKey.project ("day_" ++ today ++ ".json")
      .ok (.selected nextTask schedule2, [(dayKey, σ dayKey)])

/-- Keep-order relation for `readyNodes.sort((a, b) => a.magnitude - b.magnitude)`
(a NaN comparator result leaves the order unchanged). -/
def magKeep (a b : Node) : Bool :=
  match a.magnitude, b.magnitude with
  | some x, some y => x ≤ y
  | _, _ => true

/-- Embedding of `getNextTask` (`impossible-dream-test.js:2544`).  The
`generateAdaptiveTasks` / `generateSmartNextTasks` generators live outside
the cited core and are abstracted: `adaptiveResult` is the project-level
HTA as reloaded after adaptive generation, `smartTasks` the continuation
tasks the smart generator returns. -/
def getNextTask (σ : SaveKey → Bool) (projectId today nowIso : String)
    (config : ProjectConfig) (htaOpt : Option HTA) (learningHistory : LearningHistory)
    (scheduleOpt : Option ScheduleData) (contextFromMemory : String) (energyLevel : Int)
    (timeAvailable : String) (nowMinutes : Int) (adaptiveResult : Option HTA)
    (smartTasks : List Node) : Except String (NextTaskResult × SaveTrace) :=
  match htaOpt with
  | none => .error "No HTA tree found for this project/path. Use build_hta_tree first."
  | some hta =>
    let completedTaskIds := hta.completed_nodes.map (·.id)
    let completedTaskTitles := hta.completed_nodes.map (·.title)
    let readyNodes := hta.frontier_nodes.filter
      (nodeEligible config completedTaskIds completedTaskTitles learningHistory.completed_topics)
    let phase1 : Except String (List Node × SaveTrace) :=
      if readyNodes.isEmpty then
        match adaptiveResult with
        | none => .error "TypeError: updatedHTA is null"
        | some updatedHTA =>
          let newReadyNodes := updatedHTA.frontier_nodes.filter fun n => n.status = "ready"
          if newReadyNodes.isEmpty then
            if smartTasks.length > 0 then
              -- push the continuation tasks and save the project HTA
              let k := SaveKey.project "hta.json"
              .ok (smartTasks, [(k, σ k)])
            else .ok ([], [])
          else .ok (newReadyNodes, [])
      else .ok (readyNodes, [])
    phase1.bind fun r =>
      if r.1.isEmpty then .ok (.stuck, r.2)  -- "Sequence appears stuck" advisory
      else
        let timeInMinutes := parseTimeAvailable (some timeAvailable)
        let suitable0 := r.1.filter fun node =>
          let estimatedMinutes := parseTimeAvailable node.estimated_time
          let energyRequired : Int :=
            if jsGtL node.magnitude 7 then 4 else if jsGtL node.magnitude 5 then 3 else 2
          estimatedMinutes ≤ timeInMinutes && energyRequired ≤ energyLevel
        let suitableNodes := if suitable0.isEmpty then (sortKeep magKeep r.1).take 1 else suitable0
        match selectOptimalTask suitableNodes contextFromMemory with
        | none => .error "TypeError: nextTask is undefined"
        | some nextTask =>
          (attachTaskToSchedule σ projectId today nowIso hta energyLevel nowMinutes
              scheduleOpt nextTask).map fun r2 => (r2.1, r.2 ++ r2.2)

/-!  ## `focusLearningPath` (`impossible-dream-test.js:3290`) -/

/-- Embedding of `focusLearningPath`: records the active path in the
config (hard error if that save fails), then flags path-relevant frontier
nodes and saves the HTA (result ignored by the source). -/
def focusLearningPath (σ : SaveKey → Bool) (configOpt : Option ProjectConfig)
    (htaOpt : Option HTA) (pathName duration nowIso : String) :
    Except String ((ProjectConfig × Option HTA) × SaveTrace) :=
  match configOpt with
  | none => .error "Project configuration not found"
  | some config =>
    let existingPaths := config.learning_paths.getD []
    let pathExists := existingPaths.any fun p => chDown p.path_name.data = chDown pathName.data
    let grow := !pathExists && existingPaths.length > 0
    let newPath : LearnPathInfo :=
      { path_name := pathName, interests := [], priority := "medium",
        created_dynamically := true }
    let config2 :=
      { config with
        learning_paths := if grow then some (existingPaths ++ [newPath])
          else config.learning_paths
        active_learning_path := some pathName
        path_focus_duration := some duration
        path_focused_at := some nowIso }
    let cfgKey := SaveKey.project "config.json"
    let cfgSaved := σ cfgKey
    if !cfgSaved then .error "Failed to save path focus"
    else
      match htaOpt with
      | none => .ok ((config2, none), [(cfgKey, true)])
      | some hta =>
        let hta2 := { hta with frontier_nodes := hta.frontier_nodes.map fun node =>
          if isTaskRelevantToPath node pathName then
            { node with path_priority := some true, path_focus := some pathName }
          else { node with path_priority := some false } }
        let htaKey := SaveKey.project "hta.json"
        let htaSaved := σ htaKey  -- result ignored by the source
        .ok ((config2, some hta2), [(cfgKey, true), (htaKey, htaSaved)])

/-!  ## Claim-side checkers -/

/-- The start minute of a block (every generated block's `time` parses). -/
def blockStart (b : Block) : Int := (parseTime b.time).getD 0

/-- The duration of a block in minutes, as the scheduler's own duration
parser reads it. -/
def blockDurMin (b : Block) : Int := parseTimeAvailable (some b.duration)

/-- Is minute `m` inside some block's interval? -/
def coversMinute (blocks : List Block) (m : Int) : Bool :=
  blocks.any fun b => blockStart b ≤ m && m < blockStart b + blockDurMin b

/-- For an already-sorted block list: each block ends at or before the next
one starts. -/
def blocksContiguous : List Block → Bool
  | [] => true
  | [_] => true
  | a :: b :: t => (blockStart a + blockDurMin a ≤ blockStart b) && blocksContiguous (b :: t)

/-- Did the operation succeed? -/
def isOkE (r : Except String (CBOut × SaveTrace)) : Bool :=
  match r with
  | .ok _ => true
  | .error _ => false

/-- The saves an operation logged (empty for a thrown error). -/
def traceOfE (r : Except String (CBOut × SaveTrace)) : SaveTrace :=
  match r with
  | .ok r => r.2
  | .error _ => []

/-!  ## Theorems -/

/-- Inversion for a successful `Except.map`. -/
theorem exceptMapOk {ε α β : Type} {f : α → β} {x : Except ε α} {y : β}
    (h : Except.map f x = .ok y) : ∃ a, x = .ok a ∧ f a = y := by
  cases x with
  | error e => simp [Except.map] at h
  | ok a =>
    simp only [Except.map, Except.ok.injEq] at h
    exact ⟨a, rfl, h⟩

/-- Inversion for a successful `Except.bind`. -/
theorem exceptBindOk {ε α β : Type} {x : Except ε α} {f : α → Except ε β} {y : β}
    (h : Except.bind x f = .ok y) : ∃ a, x = .ok a ∧ f a = .ok y := by
  cases x with
  | error e => simp [Except.bind] at h
  | ok a => exact ⟨a, rfl, h⟩

set_option maxRecDepth 4000 in
/-- Round-trip check for hour 0. -/
theorem rtChunk0 : ∀ r : Nat, r < 60 →
    parseTime (formatTime ((60 * 0 + r : Nat) : Int)) = some ((60 * 0 + r : Nat) : Int) := by
  decide

set_option maxRecDepth 4000 in
/-- Round-trip check for hour 1. -/
theorem rtChunk1 : ∀ r : Nat, r < 60 →
    parseTime (formatTime ((60 * 1 + r : Nat) : Int)) = some ((60 * 1 + r : Nat) : Int) := by
  decide

set_option maxRecDepth 4000 in
/-- Round-trip check for hour 2. -/
theorem rtChunk2 : ∀ r : Nat, r < 60 →
    parseTime (formatTime ((60 * 2 + r : Nat) : Int)) = some ((60 * 2 + r : Nat) : Int) := by
  decide

set_option maxRecDepth 4000 in
/-- Round-trip check for hour 3. -/
theorem rtChunk3 : ∀ r : Nat, r < 60 →
    parseTime (formatTime ((60 * 3 + r : Nat) : Int)) = some ((60 * 3 + r : Nat) : Int) := by
  decide

set_option maxRecDepth 4000 in
/-- Round-trip check for hour 4. -/
theorem rtChunk4 : ∀ r : Nat, r < 60 →
    parseTime (formatTime ((60 * 4 + r : Nat) : Int)) = some ((60 * 4 + r : Nat) : Int) := by
  decide

set_option maxRecDepth 4000 in
/-- Round-trip check for hour 5. -/
theorem rtChunk5 : ∀ r : Nat, r < 60 →
    parseTime (formatTime ((60 * 5 + r : Nat) : Int)) = some ((60 * 5 + r : Nat) : Int) := by
  decide

set_option maxRecDepth 4000 in
/-- Round-trip check for hour 6. -/
theorem rtChunk6 : ∀ r : Nat, r < 60 →
    parseTime (formatTime ((60 * 6 + r : Nat) : Int)) = some ((60 * 6 + r : Nat) : Int) := by
  decide

set_option maxRecDepth 4000 in
/-- Round-trip check for hour 7. -/
theorem rtChunk7 : ∀ r : Nat, r < 60 →
    parseTime (formatTime ((60 * 7 + r : Nat) : Int)) = some ((60 * 7 + r : Nat) : Int) := by
  decide

set_option maxRecDepth 4000 in
/-- Round-trip check for hour 8. -/
theorem rtChunk8 : ∀ r : Nat, r < 60 →
    parseTime (formatTime ((60 * 8 + r : Nat) : Int)) = some ((60 * 8 + r : Nat) : Int) := by
  decide

set_option maxRecDepth 4000 in
/-- Round-trip check for hour 9. -/
theorem rtChunk9 : ∀ r : Nat, r < 60 →
    parseTime (formatTime ((60 * 9 + r : Nat) : Int)) = some ((60 * 9 + r : Nat) : Int) := by
  decide

set_option maxRecDepth 4000 in
/-- Round-trip check for hour 10. -/
theorem rtChunk10 : ∀ r : Nat, r < 60 →
    parseTime (formatTime ((60 * 10 + r : Nat) : Int)) = some ((60 * 10 + r : Nat) : Int) := by
  decide

set_option maxRecDepth 4000 in
/-- Round-trip check for hour 11. -/
theorem rtChunk11 : ∀ r : Nat, r < 60 →
    parseTime (formatTime ((60 * 11 + r : Nat) : Int)) = some ((60 * 11 + r : Nat) : Int) := by
  decide

set_option maxRecDepth 4000 in
/-- Round-trip check for hour 12. -/
theorem rtChunk12 : ∀ r : Nat, r < 60 →
    parseTime (formatTime ((60 * 12 + r : Nat) : Int)) = some ((60 * 12 + r : Nat) : Int) := by
  decide

set_option maxRecDepth 4000 in
/-- Round-trip check for hour 13. -/
theorem rtChunk13 : ∀ r : Nat, r < 60 →
    parseTime (formatTime ((60 * 13 + r : Nat) : Int)) = some ((60 * 13 + r : Nat) : Int) := by
  decide

set_option maxRecDepth 4000 in
/-- Round-trip check for hour 14. -/
theorem rtChunk14 : ∀ r : Nat, r < 60 →
    parseTime (formatTime ((60 * 14 + r : Nat) : Int)) = some ((60 * 14 + r : Nat) : Int) := by
  decide

set_option maxRecDepth 4000 in
/-- Round-trip check for hour 15. -/
theorem rtChunk15 : ∀ r : Nat, r < 60 →
    parseTime (formatTime ((60 * 15 + r : Nat) : Int)) = some ((60 * 15 + r : Nat) : Int) := by
  decide

set_option maxRecDepth 4000 in
/-- Round-trip check for hour 16. -/
theorem rtChunk16 : ∀ r : Nat, r < 60 →
    parseTime (formatTime ((60 * 16 + r : Nat) : Int)) = some ((60 * 16 + r : Nat) : Int) := by
  decide

set_option maxRecDepth 4000 in
/-- Round-trip check for hour 17. -/
theorem rtChunk17 : ∀ r : Nat, r < 60 →
    parseTime (formatTime ((60 * 17 + r : Nat) : Int)) = some ((60 * 17 + r : Nat) : Int) := by
  decide

set_option maxRecDepth 4000 in
/-- Round-trip check for hour 18. -/
theorem rtChunk18 : ∀ r : Nat, r < 60 →
    parseTime (formatTime ((60 * 18 + r : Nat) : Int)) = some ((60 * 18 + r : Nat) : Int) := by
  decide

set_option maxRecDepth 4000 in
/-- Round-trip check for hour 19. -/
theorem rtChunk19 : ∀ r : Nat, r < 60 →
    parseTime (formatTime ((60 * 19 + r : Nat) : Int)) = some ((60 * 19 + r : Nat) : Int) := by
  decide

set_option maxRecDepth 4000 in
/-- Round-trip check for hour 20. -/
theorem rtChunk20 : ∀ r : Nat, r < 60 →
    parseTime (formatTime ((60 * 20 + r : Nat) : Int)) = some ((60 * 20 + r : Nat) : Int) := by
  decide

set_option maxRecDepth 4000 in
/-- Round-trip check for hour 21. -/
theorem rtChunk21 : ∀ r : Nat, r < 60 →
    parseTime (formatTime ((60 * 21 + r : Nat) : Int)) = some ((60 * 21 + r : Nat) : Int) := by
  decide

set_option maxRecDepth 4000 in
/-- Round-trip check for hour 22. -/
theorem rtChunk22 : ∀ r : Nat, r < 60 →
    parseTime (formatTime ((60 * 22 + r : Nat) : Int)) = some ((60 * 22 + r : Nat) : Int) := by
  decide

set_option maxRecDepth 4000 in
/-- Round-trip check for hour 23. -/
theorem rtChunk23 : ∀ r : Nat, r < 60 →
    parseTime (formatTime ((60 * 23 + r : Nat) : Int)) = some ((60 * 23 + r : Nat) : Int) := by
  decide

/-- Round trip at one natural-number minute count below 1440. -/
theorem roundTripNat (m : Nat) (h : m < 1440) :
    parseTime (formatTime (m : Int)) = some (m : Int) := by
  obtain ⟨q, r, hq, hr, rfl⟩ : ∃ q r, q < 24 ∧ r < 60 ∧ m = 60 * q + r :=
    ⟨m / 60, m % 60, by omega, by omega, by omega⟩
  exact match q, hq with
    | 0, _ => rtChunk0 r hr
    | 1, _ => rtChunk1 r hr
    | 2, _ => rtChunk2 r hr
    | 3, _ => rtChunk3 r hr
    | 4, _ => rtChunk4 r hr
    | 5, _ => rtChunk5 r hr
    | 6, _ => rtChunk6 r hr
    | 7, _ => rtChunk7 r hr
    | 8, _ => rtChunk8 r hr
    | 9, _ => rtChunk9 r hr
    | 10, _ => rtChunk10 r hr
    | 11, _ => rtChunk11 r hr
    | 12, _ => rtChunk12 r hr
    | 13, _ => rtChunk13 r hr
    | 14, _ => rtChunk14 r hr
    | 15, _ => rtChunk15 r hr
    | 16, _ => rtChunk16 r hr
    | 17, _ => rtChunk17 r hr
    | 18, _ => rtChunk18 r hr
    | 19, _ => rtChunk19 r hr
    | 20, _ => rtChunk20 r hr
    | 21, _ => rtChunk21 r hr
    | 22, _ => rtChunk22 r hr
    | 23, _ => rtChunk23 r hr
    | n + 24, hq24 => absurd hq24 (by omega)

/-- C6: for every integer `m` in `[0, 1440)`,
`parseTime (formatTime m) = m`. -/
theorem C6_parse_format_round_trip (m : Int) (h0 : 0 ≤ m) (h1 : m < 1440) :
    parseTime (formatTime m) = some m := by
  have hm : ((m.toNat : Int)) = m := Int.toNat_of_nonneg h0
  have hlt : m.toNat < 1440 := by omega
  have := roundTripNat m.toNat hlt
  rw [hm] at this
  exact this

/-- Witness for C6 at `m = 480` (8:00 AM). -/
theorem C6_parse_format_round_trip_witness :
    ((0 : Int) ≤ 480 ∧ (480 : Int) < 1440) ∧ parseTime (formatTime 480) = some 480 :=
  ⟨by decide, C6_parse_format_round_trip 480 (by decide) (by decide)⟩

/-- C7 (code bug): on the unparsable 12-hour input `"abc PM"` the source's
`parseTime` does not return the sentinel `0` — the 12-hour branch has no
`NaN` guard (unlike the 24-hour branch), so the call returns `NaN`
(`none`).  The 24-hour branch does fail closed (`"garbage"`, `"1:xx"`),
as does `"1:30PM"` whose missing space makes `toUpperCase` throw. -/
theorem C7_parse_nan_leak :
    parseTime "abc PM" = none ∧ ¬ parseTime "abc PM" = some 0 ∧
    parseTime "1:xx PM" = none ∧
    parseTime "garbage" = some 0 ∧ parseTime "1:xx" = some 0 ∧
    parseTime "1:30PM" = some 0 := by
  decide

end Forest

namespace Forest

/-- C4: completing a task with engagement 9, two unexpected results, one
revealed skill, and one positive external-feedback entry emits exactly
five opportunity nodes — one breakthrough amplification, two serendipity
pathways, one hidden-talent development, one external opportunity — all
`ready` and all carrying a `generated_from` provenance tag. -/
theorem C4_opportunity_emission (t : TaskView) (ids : Nat → String) (k : Nat)
    (src cont : Option String) :
    ∃ r, detectEmergentOpportunities t
        { engagementLevel := 9, unexpectedResults := ["X", "Y"],
          newSkillsRevealed := ["Z"],
          externalFeedback := [.obj src cont (some "positive")] } ids k = .ok r ∧
      r.1.length = 5 ∧
      r.1.map (·.branch_type) =
        ["breakthrough_amplification", "serendipity_pathway", "serendipity_pathway",
         "hidden_talent_development", "external_opportunity"] ∧
      ∀ n ∈ r.1, n.status = "ready" ∧ n.generated_from.isSome = true := by
  refine ⟨_, rfl, ?_, ?_, ?_⟩
  · rfl
  · rfl
  · intro n hn
    simp [detectEmergentOpportunities, detectEmergentOpportunities.mkSerendipity,
      detectEmergentOpportunities.mkTalents, feedbackOpportunities] at hn
    rcases hn with h | h | h | h | h <;> subst h <;> exact ⟨rfl, rfl⟩

def tvC5 : TaskView := { id := "t1", title := "T", magnitude := some 7 }

/-- C5 (code bug): for a schema-shaped `externalFeedback` object whose
sentiment is not positive, the detector calls `feedback.includes('viral')`
on an object, which throws a TypeError instead of emitting nothing and
returning normally.  A positive entry short-circuits before the broken
call (see `C4_opportunity_emission`). -/
theorem C5_external_feedback_type_error :
    detectEmergentOpportunities tvC5
      { externalFeedback := [.obj (some "colleague") (some "not great") (some "negative")] }
      (fun _ => "x") 0 = .error "TypeError: feedback.includes is not a function" := rfl

end Forest

namespace Forest

/-- C3: after a completion, `evolveHTABasedOnLearning` applies
`adjustMagnitudes` to the whole remaining frontier, and that map: with
rating 5 sends every node's magnitude to `max 3 (magnitude - 1)` (a
decrement floored at 3); with rating 1 to `min 10 (magnitude + 1)` (an
increment ceiled at 10); with ratings 2–4 it changes nothing.  No other
field changes. -/
theorem C3_difficulty_rebalancing (rating : Int) (nodes : List Node) :
    (∀ σ cfgR hta block nextQ ctx nowIso ids k hta2 tr,
      evolveHTABasedOnLearning σ (some cfgR) (some hta) block nextQ ctx nowIso ids k =
        .ok (some hta2, tr) →
      ∃ remaining : List Node,
        hta2.frontier_nodes = adjustMagnitudes ctx.difficultyRating remaining) ∧
    (adjustMagnitudes rating nodes).length = nodes.length ∧
    (rating = 5 → ∀ i n v, nodes.get? i = some n → n.magnitude = some v →
      (adjustMagnitudes rating nodes).get? i =
        some { n with magnitude := some (max 3 (v - 1)) }) ∧
    (rating = 1 → ∀ i n v, nodes.get? i = some n → n.magnitude = some v →
      (adjustMagnitudes rating nodes).get? i =
        some { n with magnitude := some (min 10 (v + 1)) }) ∧
    (rating = 2 ∨ rating = 3 ∨ rating = 4 → adjustMagnitudes rating nodes = nodes) := by
  refine ⟨?_, ?_, ?_, ?_, ?_⟩
  · intro σ cfgR hta block nextQ ctx nowIso ids k hta2 tr hev
    unfold evolveHTABasedOnLearning at hev
    obtain ⟨em, -, hf⟩ := exceptMapOk hev
    simp only [Prod.mk.injEq, Option.some.injEq] at hf
    obtain ⟨h1, -⟩ := hf
    exact ⟨_, by rw [← h1]⟩
  · unfold adjustMagnitudes
    split
    · simp
    · split
      · simp
      · rfl
  · intro h5 i n v hget hmag
    subst h5
    unfold adjustMagnitudes
    rw [if_pos rfl, List.get?_map, hget]
    simp only [Option.map_some']
    rw [hmag]
    rfl
  · intro h1 i n v hget hmag
    subst h1
    unfold adjustMagnitudes
    rw [if_neg (by decide), if_pos rfl, List.get?_map, hget]
    simp only [Option.map_some']
    rw [hmag]
    rfl
  · intro h
    unfold adjustMagnitudes
    rcases h with rfl | rfl | rfl <;> norm_num

def nodeC3 : Node := { id := "n1", title := "N", magnitude := some 5 }

/-- Witness for C3: one node of magnitude 5 becomes 4 under rating 5,
becomes 6 under rating 1, and is untouched under rating 3. -/
theorem C3_difficulty_rebalancing_witness :
    (adjustMagnitudes 5 [nodeC3]).get? 0 = some { nodeC3 with magnitude := some 4 } ∧
    (adjustMagnitudes 1 [nodeC3]).get? 0 = some { nodeC3 with magnitude := some 6 } ∧
    adjustMagnitudes 3 [nodeC3] = [nodeC3] := by
  refine ⟨?_, ?_, ?_⟩
  · have h := (C3_difficulty_rebalancing 5 [nodeC3]).2.2.1 rfl 0 nodeC3 5 rfl rfl
    simpa using h
  · have h := (C3_difficulty_rebalancing 1 [nodeC3]).2.2.2.1 rfl 0 nodeC3 5 rfl rfl
    simpa using h
  · exact (C3_difficulty_rebalancing 3 [nodeC3]).2.2.2.2 (Or.inr (Or.inl rfl))

end Forest

namespace Forest

/-- C2: in `getNextTask`'s ready filter, one prerequisite entry `p` is
satisfied iff `p` is a completed node's id, or a completed node's title,
or the `topic` of a completed-topics record; a ready node whose
prerequisites are all satisfied passes the filter (when no learning path
is active, which adds its own relevance condition), and a ready node with
a prerequisite satisfying none of the three lookups never passes. -/
theorem C2_prerequisite_fallback (config : ProjectConfig) (hta : HTA)
    (history : LearningHistory) (node : Node) (hready : node.status = "ready") :
    (∀ p, prereqSatisfied (hta.completed_nodes.map (·.id)) (hta.completed_nodes.map (·.title))
        history.completed_topics p = true ↔
      ((∃ n ∈ hta.completed_nodes, n.id = p) ∨ (∃ n ∈ hta.completed_nodes, n.title = p) ∨
       (∃ t ∈ history.completed_topics, t.topic = p))) ∧
    (config.active_learning_path = none →
      (nodeEligible config (hta.completed_nodes.map (·.id)) (hta.completed_nodes.map (·.title))
          history.completed_topics node = true ↔
        ∀ p ∈ node.prerequisites.getD [],
          prereqSatisfied (hta.completed_nodes.map (·.id)) (hta.completed_nodes.map (·.title))
            history.completed_topics p = true)) ∧
    (∀ p ∈ node.prerequisites.getD [],
      prereqSatisfied (hta.completed_nodes.map (·.id)) (hta.completed_nodes.map (·.title))
        history.completed_topics p = false →
      nodeEligible config (hta.completed_nodes.map (·.id)) (hta.completed_nodes.map (·.title))
        history.completed_topics node = false) := by
  refine ⟨?_, ?_, ?_⟩
  · intro p
    simp only [prereqSatisfied, Bool.or_eq_true, List.elem_iff, List.any_eq_true,
      decide_eq_true_eq, List.mem_map]
    constructor
    · rintro ((⟨n, hn, rfl⟩ | ⟨n, hn, rfl⟩) | ⟨t, ht, h⟩)
      · exact Or.inl ⟨n, hn, rfl⟩
      · exact Or.inr (Or.inl ⟨n, hn, rfl⟩)
      · exact Or.inr (Or.inr ⟨t, ht, h⟩)
    · rintro (⟨n, hn, rfl⟩ | ⟨n, hn, rfl⟩ | ⟨t, ht, h⟩)
      · exact Or.inl (Or.inl ⟨n, hn, rfl⟩)
      · exact Or.inl (Or.inr ⟨n, hn, rfl⟩)
      · exact Or.inr ⟨t, ht, h⟩
  · intro hpath
    unfold nodeEligible
    rw [hready, hpath]
    cases hpre : node.prerequisites with
    | none => simp
    | some ps =>
      cases ps with
      | nil => simp
      | cons q qs => simp [List.all_eq_true]
  · intro p hp hfail
    unfold nodeEligible
    rw [hready]
    cases hpre : node.prerequisites with
    | none => rw [hpre] at hp; simp at hp
    | some ps =>
      rw [hpre] at hp
      simp only [Option.getD_some] at hp
      have hlen : 0 < ps.length := List.length_pos.mpr (by rintro rfl; simp at hp)
      have hall : ps.all (prereqSatisfied (hta.completed_nodes.map (·.id))
          (hta.completed_nodes.map (·.title)) history.completed_topics) = false :=
        List.all_eq_false.mpr ⟨p, hp, by simp [hfail]⟩
      simp [hlen, hall]

end Forest

namespace Forest

def htaC2 : HTA := { completed_nodes := [{ id := "Foo", title := "Bar" }] }

def nodeC2 : Node := { id := "n2", status := "ready", prerequisites := some ["Foo"] }

def nodeC2b : Node := { id := "n3", status := "ready", prerequisites := some ["Baz"] }

/-- Witness for C2: with a completed node of id "Foo", a ready node with
prerequisite "Foo" passes the filter and one with prerequisite "Baz"
(matching no id, title or topic) does not. -/
theorem C2_prerequisite_fallback_witness :
    nodeEligible {} (htaC2.completed_nodes.map (·.id)) (htaC2.completed_nodes.map (·.title))
      (LearningHistory.completed_topics {}) nodeC2 = true ∧
    nodeEligible {} (htaC2.completed_nodes.map (·.id)) (htaC2.completed_nodes.map (·.title))
      (LearningHistory.completed_topics {}) nodeC2b = false := by
  constructor
  · exact ((C2_prerequisite_fallback {} htaC2 {} nodeC2 rfl).2.1 rfl).mpr (by decide)
  · exact (C2_prerequisite_fallback {} htaC2 {} nodeC2b rfl).2.2 "Baz" (by decide) (by decide)

end Forest

namespace Forest

def cfgC1 : ProjectConfig := { wake_minutes := 480, sleep_minutes := 720 }

def idsC1 : Nat → String := fun n => "g" ++ String.mk (chOfNat n)

def schedC1 : ScheduleData := generateComprehensiveSchedule cfgC1 {} 3 "mixed" idsC1

def htaC1b : HTA :=
  { frontier_nodes :=
      [{ id := "L1", title := "A", status := "ready", magnitude := some 5,
         estimated_time := some "2 hours", learning_outcomes := some [] },
       { id := "L2", title := "B", status := "ready", magnitude := some 5,
         estimated_time := some "2 hours", learning_outcomes := some [] }] }

def schedC1b : ScheduleData := generateComprehensiveSchedule cfgC1 htaC1b 3 "mixed" idsC1

/-- C1 (code bug): generated schedules are neither gap-free nor
non-overlapping, although the generator's own report text claims
"no gaps!" and the spec calls this the primary invariant.  With wake 8:00
AM and sleep 12:00 PM (resolved end 720) and an empty frontier, the first
block is a 10-minute break in a 15-minute slot, so minute 490 of the
window is uncovered; with two ready nodes whose `estimated_time` is
"2 hours", consecutive learning blocks 15 minutes apart overlap, so the
sorted blocks violate `end ≤ next start`. -/
theorem C1_schedule_gaps_and_overlaps :
    resolveEndTime cfgC1.wake_minutes cfgC1.sleep_minutes = 720 ∧
    coversMinute (schedC1.time_blocks.getD []) 490 = false ∧
    ((480 : Int) ≤ 490 ∧ (490 : Int) < 720) ∧
    blocksContiguous (schedC1b.time_blocks.getD []) = false := by
  decide

end Forest

namespace Forest

theorem insertKeep_length (keep : α → α → Bool) (x : α) (l : List α) :
    (insertKeep keep x l).length = l.length + 1 := by
  induction l with
  | nil => rfl
  | cons y ys ih =>
    unfold insertKeep
    split
    · simp [ih]
    · simp

theorem sortKeep_length (keep : α → α → Bool) (l : List α) :
    (sortKeep keep l).length = l.length := by
  suffices h : ∀ acc : List α,
      (l.foldl (fun a x => insertKeep keep x a) acc).length = acc.length + l.length by
    simpa using h []
  induction l with
  | nil => simp
  | cons y ys ih =>
    intro acc
    simp only [List.foldl_cons, ih, insertKeep_length, List.length_cons]
    omega

theorem markConsumed_nil (slots : List Slot) : markConsumed [] slots = slots := by
  unfold markConsumed
  simp

theorem createTimeSlots_available (a b : Int) (fb : List Block) (s : Slot)
    (hs : s ∈ createTimeSlots a b fb) : s.available = true := by
  unfold createTimeSlots at hs
  simp only [List.mem_filterMap] at hs
  obtain ⟨i, -, hi⟩ := hs
  split at hi
  · exact absurd hi (by simp)
  · cases hi; rfl

theorem createTimeSlots_no_fixed_ne (a b : Int) (hab : a < b) :
    createTimeSlots a b [] ≠ [] := by
  unfold createTimeSlots
  intro hcontra
  simp only [List.any_nil, Bool.false_eq_true, if_false, List.filterMap_eq_map,
    List.map_eq_nil, List.range_eq_nil] at hcontra
  rw [if_neg (by omega : ¬ b ≤ a)] at hcontra
  have hge : 15 ≤ (b - a).toNat + 14 := by omega
  have h1 := (Nat.one_le_div_iff (by norm_num : 0 < 15)).mpr hge
  rw [List.eq_nil_iff_forall_not_mem] at hcontra
  exact hcontra _ (List.mem_filterMap.mpr ⟨0, List.mem_range.mpr (by omega), rfl⟩)

theorem assignSlots_nil (nodes : List Node) (mk : Node → Slot → Block) (slots : List Slot)
    (st : Nat) (h : (assignSlots nodes mk slots st).1 = []) :
    (assignSlots nodes mk slots st).2.1 = [] := by
  cases slots with
  | nil => rfl
  | cons s rest =>
    unfold assignSlots at h ⊢
    cases hg : nodes.get? st with
    | some node => rw [hg] at h; exact absurd h (by simp)
    | none => rfl

theorem assignPeriods_nil (nodes : List Node) (mk : Node → Slot → Block) (snap : List Slot)
    (ps : List (Option Int × Option Int)) (ni : Nat)
    (h : (assignPeriods nodes mk snap ps ni).1 = []) :
    (assignPeriods nodes mk snap ps ni).2.1 = [] := by
  induction ps generalizing ni with
  | nil => rfl
  | cons p rest ih =>
    unfold assignPeriods at h ⊢
    simp only [List.append_eq_nil] at h
    obtain ⟨h1, h2⟩ := h
    simp only [List.append_eq_nil]
    exact ⟨assignSlots_nil _ _ _ _ h1, ih _ h2⟩

theorem scheduleLearningBlocks_nil (L : List Node) (ts : List Slot)
    (ps : List (Option Int × Option Int)) (fd : Int)
    (h : (scheduleLearningBlocks L ts ps fd).1 = []) :
    (scheduleLearningBlocks L ts ps fd).2 = ts := by
  unfold scheduleLearningBlocks at h ⊢
  simp only [List.append_eq_nil] at h
  obtain ⟨h1, h2⟩ := h
  have c1 := assignPeriods_nil _ _ _ _ _ h1
  simp only [c1] at h2 ⊢
  have c2 := assignSlots_nil _ _ _ _ h2
  simp only [c2, List.append_nil]
  exact markConsumed_nil ts

theorem assignHabits_nil (snap : List Slot) (times : List Int) (hs : List (Nat × HabitNode))
    (h : (assignHabits snap times hs).1 = []) : (assignHabits snap times hs).2 = [] := by
  induction hs with
  | nil => rfl
  | cons ih rest ihh =>
    obtain ⟨index, habit⟩ := ih
    unfold assignHabits at h ⊢
    cases hg : times.get? index with
    | none => simp only [hg] at h ⊢; exact ihh h
    | some target =>
      simp only [hg] at h ⊢
      cases hf : snap.find? (fun s => (s.start - target).natAbs < 30) with
      | none => simp only [hf] at h ⊢; exact ihh h
      | some ns => simp only [hf] at h; exact absurd h (by simp)

theorem scheduleHabitBlocks_nil (hn : List HabitNode) (ts : List Slot) (config : ProjectConfig)
    (h : (scheduleHabitBlocks hn ts config).1 = []) :
    (scheduleHabitBlocks hn ts config).2 = ts := by
  unfold scheduleHabitBlocks at h ⊢
  simp only [assignHabits_nil _ _ _ h, markConsumed_nil]

theorem scheduleLifeStructure_ne (ts : List Slot) (config : ProjectConfig)
    (ids : Nat → String) (k : Nat) (h : ts.filter (·.available) ≠ []) :
    (scheduleLifeStructure ts config ids k).1 ≠ [] := by
  unfold scheduleLifeStructure
  cases hsnap : ts.filter (·.available) with
  | nil => exact absurd hsnap h
  | cons s rest =>
    cases rest with
    | nil =>
      -- a single available slot: no break fits, so it becomes a transition
      have hrb : mkBreaks [s] ids (List.enum [s]) k = ([], [], k) := rfl
      simp only [hrb]
      simp
      have hmem : s ∈ ts.filter (·.available) := by
        rw [hsnap]; exact List.mem_singleton.mpr rfl
      have hsf := List.mem_filter.mp hmem
      exact ⟨s, hsf.1, hsf.2⟩
    | cons s2 rest2 =>
      have hrb : mkBreaks (s :: s2 :: rest2) ids (List.enum (s :: s2 :: rest2)) k =
          (({ id := ids k, kind := "break", time := s.formatted_time, duration := "10 min",
              action := "Restorative Break",
              description := "Rest, stretch, hydrate, or light movement",
              energy_impact := some "restorative" } : Block) ::
            (mkBreaks (s :: s2 :: rest2) ids (List.enumFrom 1 (s2 :: rest2)) (k + 1)).1,
           s.start :: (mkBreaks (s :: s2 :: rest2) ids
              (List.enumFrom 1 (s2 :: rest2)) (k + 1)).2.1,
           (mkBreaks (s :: s2 :: rest2) ids (List.enumFrom 1 (s2 :: rest2)) (k + 1)).2.2) :=
        rfl
      simp only [hrb]
      simp

end Forest

namespace Forest

theorem generate_nonempty (config : ProjectConfig) (hta : HTA) (energy : Int)
    (focus : String) (ids : Nat → String)
    (h : config.sleep_minutes = config.wake_minutes) :
    0 < (generateComprehensiveSchedule config hta energy focus ids).total_blocks := by
  unfold generateComprehensiveSchedule
  dsimp only
  rw [sortKeep_length]
  rw [Int.natCast_pos, List.length_pos]
  intro hc
  simp only [List.append_eq_nil] at hc
  obtain ⟨⟨⟨hf, hl⟩, hh⟩, hs⟩ := hc
  rw [hf] at hl hh hs
  have hT2 := scheduleLearningBlocks_nil _ _ _ _ hl
  rw [hT2] at hh hs
  have hT3 := scheduleHabitBlocks_nil _ _ _ hh
  rw [hT3] at hs
  refine scheduleLifeStructure_ne _ _ _ _ ?_ hs
  rw [List.filter_eq_self.mpr (fun s hs' => createTimeSlots_available _ _ _ _ hs')]
  apply createTimeSlots_no_fixed_ne
  unfold resolveEndTime
  rw [h, if_pos le_rfl]
  omega

/-- C8: the schedule generator resolves the day window by the single rule
`end = if sleep ≤ wake then sleep + 1440 else sleep`; in particular, with
`wake = sleep` the window spans a full 1440 minutes and the generated
schedule is never empty. -/
theorem C8_window_resolution :
    (∀ wakeMinutes sleepMinutes : Int,
      (sleepMinutes ≤ wakeMinutes →
        resolveEndTime wakeMinutes sleepMinutes = sleepMinutes + 1440) ∧
      (wakeMinutes < sleepMinutes →
        resolveEndTime wakeMinutes sleepMinutes = sleepMinutes)) ∧
    (∀ w : Int, resolveEndTime w w - w = 1440) ∧
    (∀ (config : ProjectConfig) (hta : HTA) (energyLevel : Int) (focusType : String)
        (ids : Nat → String), config.sleep_minutes = config.wake_minutes →
      0 < (generateComprehensiveSchedule config hta energyLevel focusType ids).total_blocks) := by
  refine ⟨?_, ?_, ?_⟩
  · intro w s
    constructor
    · intro hle
      unfold resolveEndTime
      rw [if_pos hle]
    · intro hlt
      unfold resolveEndTime
      rw [if_neg (by omega)]
  · intro w
    unfold resolveEndTime
    rw [if_pos le_rfl]
    omega
  · exact generate_nonempty

def cfgC8 : ProjectConfig := { wake_minutes := 480, sleep_minutes := 480 }

/-- Witness for C8: with wake = sleep = 8:00 AM the resolved end is the
next day's 8:00 AM and the generated schedule is non-empty. -/
theorem C8_window_resolution_witness :
    resolveEndTime 480 480 = 1920 ∧
    0 < (generateComprehensiveSchedule cfgC8 {} 3 "mixed" idsC1).total_blocks := by
  constructor
  · rw [(C8_window_resolution.1 480 480).1 le_rfl]
    norm_num
  · exact C8_window_resolution.2.2 cfgC8 {} 3 "mixed" idsC1 rfl

end Forest

namespace Forest

/-- The blocks of (a possibly missing) loaded schedule. -/
def schedBlocks0 (schedOpt : Option ScheduleData) : List Block :=
  match schedOpt with
  | some s => s.time_blocks.getD []
  | none => []

theorem attachTaskToSchedule_ok (σ : SaveKey → Bool) (pid today nowIso : String)
    (hta : HTA) (energy now : Int) (schedOpt : Option ScheduleData) (task : Node)
    (res : NextTaskResult) (tr : SaveTrace)
    (h : attachTaskToSchedule σ pid today nowIso hta energy now schedOpt task =
      .ok (res, tr)) :
    ∃ sched, res = .selected task sched ∧
      ((schedBlocks0 schedOpt).any (fun b => b.id = task.id) = false →
        sched.time_blocks = some (schedBlocks0 schedOpt ++ [nextTaskBlock task now]) ∧
        (SaveKey.project ("day_" ++ today ++ ".json"),
         σ (SaveKey.project ("day_" ++ today ++ ".json"))) ∈ tr) := by
  unfold attachTaskToSchedule at h
  unfold schedBlocks0
  cases hlo : task.learning_outcomes with
  | none => rw [hlo] at h; exact absurd h (by simp)
  | some outcomes =>
    rw [hlo] at h
    cases schedOpt with
    | none =>
      simp only [Option.getD_some, List.any_nil] at h ⊢
      rw [if_neg (by simp)] at h
      simp only [Except.ok.injEq, Prod.mk.injEq] at h
      obtain ⟨hres, htr⟩ := h
      refine ⟨_, hres.symm, fun _ => ⟨rfl, ?_⟩⟩
      rw [← htr]
      simp
    | some s =>
      simp only [Option.getD_some] at h ⊢
      by_cases hany : (s.time_blocks.getD []).any (fun b => b.id = task.id) = true
      · rw [if_pos hany] at h
        simp only [Except.ok.injEq, Prod.mk.injEq] at h
        obtain ⟨hres, -⟩ := h
        exact ⟨_, hres.symm, fun hfalse => absurd hany (by simp [hfalse])⟩
      · rw [if_neg hany] at h
        simp only [Except.ok.injEq, Prod.mk.injEq] at h
        obtain ⟨hres, htr⟩ := h
        refine ⟨_, hres.symm, fun _ => ⟨rfl, ?_⟩⟩
        rw [← htr]
        simp

/-- C10: a `getNextTask` call that returns a selected task is not a
read-only query: when the task is not already in today's schedule, the
call appends it as a learning block timed at the current clock time
(creating today's schedule from scratch when none exists) and performs a
save of the day file. -/
theorem C10_selection_mutates_schedule (σ : SaveKey → Bool)
    (projectId today nowIso : String) (config : ProjectConfig) (htaOpt : Option HTA)
    (history : LearningHistory) (schedOpt : Option ScheduleData) (ctxM : String)
    (energy : Int) (timeAvail : String) (now : Int) (adaptive : Option HTA)
    (smart : List Node) (t : Node) (sched : ScheduleData) (tr : SaveTrace)
    (h : getNextTask σ projectId today nowIso config htaOpt history schedOpt ctxM energy
      timeAvail now adaptive smart = .ok (.selected t sched, tr)) :
    ((schedBlocks0 schedOpt).any (fun b => b.id = t.id) = false →
      sched.time_blocks = some (schedBlocks0 schedOpt ++ [nextTaskBlock t now]) ∧
      (SaveKey.project ("day_" ++ today ++ ".json"),
       σ (SaveKey.project ("day_" ++ today ++ ".json"))) ∈ tr) ∧
    (schedOpt = none →
      sched.time_blocks = some [nextTaskBlock t now] ∧
      (SaveKey.project ("day_" ++ today ++ ".json"),
       σ (SaveKey.project ("day_" ++ today ++ ".json"))) ∈ tr) := by
  cases htaOpt with
  | none => exact absurd h (by simp [getNextTask])
  | some hta =>
    unfold getNextTask at h
    obtain ⟨r, -, hf⟩ := exceptBindOk h
    by_cases hemp : r.1.isEmpty
    · rw [if_pos hemp] at hf
      exact absurd hf (by simp)
    · rw [if_neg hemp] at hf
      dsimp only at hf
      split at hf
      · exact absurd hf (by simp)
      · rename_i nextTask hsel
        obtain ⟨r2, hat, hg⟩ := exceptMapOk hf
        simp only [Prod.mk.injEq] at hg
        obtain ⟨hres2, htr2⟩ := hg
        obtain ⟨sched2, hsel2, hprop⟩ := attachTaskToSchedule_ok _ _ _ _ _ _ _ _ _ _ _ hat
        rw [hsel2] at hres2
        cases hres2
        constructor
        · intro hfalse
          obtain ⟨h1, h2⟩ := hprop hfalse
          exact ⟨h1, by rw [← htr2]; exact List.mem_append_right _ h2⟩
        · intro hnone
          subst hnone
          obtain ⟨h1, h2⟩ := hprop (by simp [schedBlocks0])
          refine ⟨by simpa [schedBlocks0] using h1, by rw [← htr2]; exact List.mem_append_right _ h2⟩

end Forest

namespace Forest

def nW : Node :=
  { id := "n1", title := "Task One", branch_type := "practical",
    estimated_time := some "25 minutes", priority := "high", status := "ready",
    magnitude := some 5, learning_outcomes := some ["LO"] }

def schedW : ScheduleData :=
  { north_star := "", time_blocks := some [nextTaskBlock nW 600], total_blocks := 1,
    completed := 0, energy_level := 3, focus_type := "mixed", project_id := some "p1",
    date := some "d", created := some "iso" }

/-- Witness for C10: a concrete `getNextTask` run with no schedule on disk
selects the only ready node, creates today's schedule holding exactly the
appended learning block timed at 10:00 AM, and logs the day-file save. -/
theorem C10_selection_mutates_schedule_witness :
    schedW.time_blocks = some [nextTaskBlock nW 600] ∧
    (SaveKey.project ("day_" ++ "d" ++ ".json"), true) ∈
      ([(SaveKey.project "day_d.json", true)] : SaveTrace) := by
  have h : getNextTask (fun _ => true) "p1" "d" "iso" {} (some { frontier_nodes := [nW] })
      {} none "" 3 "30 minutes" 600 none [] =
      .ok (.selected nW schedW, [(SaveKey.project "day_d.json", true)]) := by
    rfl
  exact (C10_selection_mutates_schedule (fun _ => true) "p1" "d" "iso" {}
    (some { frontier_nodes := [nW] }) {} none "" 3 "30 minutes" 600 none [] nW schedW
    [(SaveKey.project "day_d.json", true)] h).2 rfl

end Forest

namespace Forest

def block9 : Block :=
  { id := "b1", kind := "learning", time := "8:00 AM", duration := "25 min", action := "Study" }

def sched9 : ScheduleData := { time_blocks := some [block9] }

def hta9 : HTA := { frontier_nodes := [{ id := "b1", title := "Study", magnitude := some 5 }] }

/-- An oracle failing every save except the day-schedule file. -/
def sigma9 : SaveKey → Bool := fun k =>
  !(k = SaveKey.project "learning_history.json" || k = SaveKey.project "config.json" ||
    k = SaveKey.path "general" "hta.json" || k = SaveKey.project "hta.json")

/-- C9 counterexample: a `completeBlock` run in which the learning-history
save, the config save and both HTA saves all return false still completes
successfully — the operation does not abort on those failed saves. -/
theorem C9_counterexample :
    isOkE (completeBlock sigma9 "d" "now" (some sched9) (some {}) (some {}) (some {})
      (some hta9) idsC1 "b1" "done" "stuff" "" 3 3 false 5 [] [] []) = true ∧
    (SaveKey.project "learning_history.json", false) ∈
      traceOfE (completeBlock sigma9 "d" "now" (some sched9) (some {}) (some {}) (some {})
        (some hta9) idsC1 "b1" "done" "stuff" "" 3 3 false 5 [] [] []) ∧
    (SaveKey.project "config.json", false) ∈
      traceOfE (completeBlock sigma9 "d" "now" (some sched9) (some {}) (some {}) (some {})
        (some hta9) idsC1 "b1" "done" "stuff" "" 3 3 false 5 [] [] []) ∧
    (SaveKey.path "general" "hta.json", false) ∈
      traceOfE (completeBlock sigma9 "d" "now" (some sched9) (some {}) (some {}) (some {})
        (some hta9) idsC1 "b1" "done" "stuff" "" 3 3 false 5 [] [] []) ∧
    (SaveKey.project "hta.json", false) ∈
      traceOfE (completeBlock sigma9 "d" "now" (some sched9) (some {}) (some {}) (some {})
        (some hta9) idsC1 "b1" "done" "stuff" "" 3 3 false 5 [] [] []) := by
  decide

def cfgF : ProjectConfig :=
  { active_learning_path := some "piano", path_focus_duration := some "1 week",
    path_focused_at := some "iso" }

/-- C9 as amended: the schedule-update save in `completeBlock` and the
config save in `focusLearningPath` are checked — when they return false
the operation aborts with a hard error; but the learning-history and
config saves in `completeBlock`, the HTA save in
`evolveHTABasedOnLearning` (which falls back to a second, equally
unchecked location) and the HTA save in `focusLearningPath` are not
checked, and the operation completes successfully even when they all
return false. -/
theorem C9_save_failure_handling :
    (∀ (σ : SaveKey → Bool) (today nowIso : String) (sched : ScheduleData)
        (blocks : List Block) (historyOpt : Option LearningHistory)
        (configOpt configReload : Option ProjectConfig) (htaOpt : Option HTA)
        (ids : Nat → String) (blockId outcome learned nextQuestions : String)
        (energyLevel difficultyRating : Int) (breakthrough : Bool) (engagementLevel : Int)
        (unexpectedResults newSkillsRevealed : List String) (externalFeedback : List Feedback),
      sched.time_blocks = some blocks →
      blocks.any (fun b => b.id = blockId) = true →
      σ (SaveKey.project ("day_" ++ today ++ ".json")) = false →
      completeBlock σ today nowIso (some sched) historyOpt configOpt configReload htaOpt ids
        blockId outcome learned nextQuestions energyLevel difficultyRating breakthrough
        engagementLevel unexpectedResults newSkillsRevealed externalFeedback =
        .error "Failed to save schedule update") ∧
    (∀ (σ : SaveKey → Bool) (config : ProjectConfig) (htaOpt : Option HTA)
        (pathName duration nowIso : String),
      σ (SaveKey.project "config.json") = false →
      focusLearningPath σ (some config) htaOpt pathName duration nowIso =
        .error "Failed to save path focus") ∧
    (isOkE (completeBlock sigma9 "d" "now" (some sched9) (some {}) (some {}) (some {})
      (some hta9) idsC1 "b1" "done" "stuff" "" 3 3 false 5 [] [] []) = true) ∧
    (focusLearningPath (fun k => !(k = SaveKey.project "hta.json")) (some {}) (some {})
        "piano" "1 week" "iso" =
      .ok ((cfgF, some ({} : HTA)),
        [(SaveKey.project "config.json", true), (SaveKey.project "hta.json", false)])) := by
  refine ⟨?_, ?_, ?_, ?_⟩
  · intro σ today nowIso sched blocks historyOpt configOpt configReload htaOpt ids blockId
      outcome learned nextQuestions energyLevel difficultyRating breakthrough engagementLevel
      unexpectedResults newSkillsRevealed externalFeedback htb hany hday
    obtain ⟨b, hfind⟩ : ∃ b, blocks.find? (fun bb => bb.id = blockId) = some b := by
      have hsome : (blocks.find? fun bb => bb.id = blockId).isSome :=
        List.find?_isSome.mpr (by simpa [List.any_eq_true] using hany)
      exact Option.isSome_iff_exists.mp hsome
    simp [completeBlock, htb, hany, hfind, hday]
  · intro σ config htaOpt pathName duration nowIso hcfg
    simp [focusLearningPath, hcfg]
  · decide
  · rfl

end Forest

namespace Forest

/-- Witness for C9: with an oracle failing every save, `completeBlock`
aborts at the schedule save and `focusLearningPath` aborts at the config
save. -/
theorem C9_save_failure_handling_witness :
    completeBlock (fun _ => false) "d" "now" (some sched9) (some {}) (some {}) (some {})
      (some hta9) idsC1 "b1" "done" "stuff" "" 3 3 false 5 [] [] [] =
      .error "Failed to save schedule update" ∧
    focusLearningPath (fun _ => false) (some {}) (some {}) "piano" "1 week" "iso" =
      .error "Failed to save path focus" := by
  constructor
  · exact C9_save_failure_handling.1 (fun _ => false) "d" "now" sched9 [block9] (some {})
      (some {}) (some {}) (some hta9) idsC1 "b1" "done" "stuff" "" 3 3 false 5 [] [] []
      rfl (by decide) rfl
  · exact C9_save_failure_handling.2.1 (fun _ => false) {} (some {}) "piano" "1 week" "iso" rfl

end Forest
